import Mathlib

/-!
File system operations of the XRootD client (`XrdClFileSystemOperations.hh`).

A shallow embedding of the operation catalogue: every `RunImpl` of the header is
transcribed as a function that produces the observable trace of the run (which
argument cells were read, which request was handed to the file system, which
wrapper handlers were allocated and released) together with its outcome (the
returned status, or the exception that leaves the function).

The header includes three others that are not part of the sources at hand
(`XrdClFileSystem.hh`, `XrdClOperations.hh`, `XrdClOperationHandlers.hh`).  What
is needed from them is either a parameter of the embedding (the file system) or
a definition marked `Modelled from the spec:`.
-/

namespace XrdCl

/-! ## Status -/

/-- Modelled from the spec: the origin tag of a Status (section 3, "Status"); the
header that declares the status type is not among the sources. -/
inductive Origin
  | None
  | Transport
  | Protocol
  | Local
  | Forwarding
  deriving DecidableEq

/-- Modelled from the spec: `XRootDStatus`, the uniform outcome value
`{ ok, origin, code, message }` of section 3.  The field `ok` is not stored: the
spec fixes `ok == true` iff `origin == None`, so it is computed by `IsOK`. -/
structure XRootDStatus where
  origin : Origin
  code : Int
  message : String
  deriving DecidableEq

/-- Modelled from the spec: `XRootDStatus::IsOK()`, true iff the origin is `None`. -/
def XRootDStatus.IsOK (st : XRootDStatus) : Bool :=
  decide (st.origin = Origin.None)

/-- Modelled from the spec: the status built by `XRootDStatus( stError, ex.what() )`
in the generic catch clause.  The constructor is not among the sources; the call
passes the error marker and the text of the exception, and section 4.2 makes the
status of a fault caught at this boundary a `Local`-origin one. -/
def XRootDStatus.stError (what : String) : XRootDStatus :=
  { origin := Origin.Local, code := 0, message := what }

/-! ## Exceptions and argument cells -/

/-- What a C++ expression can throw, as far as the catch clauses of `RunImpl`
tell the cases apart: a `PipelineException` (it carries a status), another
`std::exception` (it carries a text), or an object that is no `std::exception`. -/
inductive Thrown
  | PipelineException (error : XRootDStatus)
  | stdException (what : String)
  | foreign (tag : Nat)
  deriving DecidableEq

/-- Modelled from the spec: the status with which reading a Forwarded cell fails
when its source has not been populated (section 4.1: a `Forwarding` error). -/
def forwardingError : XRootDStatus :=
  { origin := Origin.Forwarding, code := 0, message := "forwarded value is not available" }

/-- Modelled from the spec: `Arg<T>`, the typed parameter cell of section 3.  It is
Bound (holds a value) or Forwarded (refers to the result slot of an earlier
stage, which holds a value or is still empty); `raising` stands for a cell whose
evaluation raises a fault, the case the catch clauses of `RunImpl` exist for. -/
inductive Arg (α : Type)
  | bound (value : α)
  | forwarded (slot : Option α)
  | raising (fault : Thrown)

/-- Modelled from the spec: `Arg<T>::Get()` (section 4.1).  A Bound cell and a
Forwarded cell whose source is populated give the value; a Forwarded cell whose
source is empty fails with a `Forwarding` error, raised as a pipeline error. -/
def Arg.Get {α : Type} : Arg α → Except Thrown α
  | Arg.bound v => Except.ok v
  | Arg.forwarded (some v) => Except.ok v
  | Arg.forwarded none => Except.error (Thrown.PipelineException forwardingError)
  | Arg.raising t => Except.error t

/-- The fault with which `Get()` on the cell fails, if it fails. -/
def Arg.fault {α : Type} (a : Arg α) : Option Thrown :=
  match a.Get with
  | Except.ok _ => none
  | Except.error t => some t

/-! ## Handlers, requests, the file system -/

/-- A response handler, as a reference: the handler of the operation itself
(`this->handler.get()`), or one of the two unpacking wrappers that the
single-attribute operations allocate around it. -/
inductive HandlerRef
  | pipeline (id : Nat)
  | UnpackXAttrStatus (inner : HandlerRef)
  | UnpackXAttr (inner : HandlerRef)
  deriving DecidableEq

/-- A Buffer, by its bytes. -/
abbrev Buffer := List Nat

/-- An extended attribute, `xattr_t`: the pair (name, value). -/
abbrev xattr_t := String × String

/-- A request handed to the file system: one constructor for each asynchronous
method of `FileSystem` that the header calls, with the values passed. -/
inductive Call
  | Locate (path : String) (flags : Nat) (handler : HandlerRef)
  | DeepLocate (path : String) (flags : Nat) (handler : HandlerRef)
  | Mv (source dest : String) (handler : HandlerRef)
  | Query (queryCode : Nat) (buffer : Buffer) (handler : HandlerRef)
  | Truncate (path : String) (size : Nat) (handler : HandlerRef)
  | Rm (path : String) (handler : HandlerRef)
  | MkDir (path : String) (flags : Nat) (mode : Nat) (handler : HandlerRef)
  | RmDir (path : String) (handler : HandlerRef)
  | ChMod (path : String) (mode : Nat) (handler : HandlerRef)
  | Ping (handler : HandlerRef)
  | Stat (path : String) (handler : HandlerRef)
  | StatVFS (path : String) (handler : HandlerRef)
  | Protocol (handler : HandlerRef)
  | DirList (path : String) (flags : Nat) (handler : HandlerRef)
  | SendInfo (info : String) (handler : HandlerRef)
  | Prepare (fileList : List String) (flags : Nat) (priority : Nat) (handler : HandlerRef)
  | SetXAttr (path : String) (attrs : List xattr_t) (handler : HandlerRef)
  | GetXAttr (path : String) (attrs : List String) (handler : HandlerRef)
  | DelXAttr (path : String) (attrs : List String) (handler : HandlerRef)
  | ListXAttr (path : String) (handler : HandlerRef)
  deriving DecidableEq

/-- The handler passed with a request. -/
def Call.handler : Call → HandlerRef
  | Call.Locate _ _ h => h
  | Call.DeepLocate _ _ h => h
  | Call.Mv _ _ h => h
  | Call.Query _ _ h => h
  | Call.Truncate _ _ h => h
  | Call.Rm _ h => h
  | Call.MkDir _ _ _ h => h
  | Call.RmDir _ h => h
  | Call.ChMod _ _ h => h
  | Call.Ping h => h
  | Call.Stat _ h => h
  | Call.StatVFS _ h => h
  | Call.Protocol h => h
  | Call.DirList _ _ h => h
  | Call.SendInfo _ h => h
  | Call.Prepare _ _ _ h => h
  | Call.SetXAttr _ _ h => h
  | Call.GetXAttr _ _ h => h
  | Call.DelXAttr _ _ h => h
  | Call.ListXAttr _ h => h

/-- A typed response, as delivered to a handler with the final status. -/
inductive Response
  | LocationInfo (addresses : List String)
  | Buffer (bytes : Buffer)
  | StatInfo (size : Nat)
  | StatInfoVFS (nodes : Nat)
  | ProtocolInfo (version : Nat)
  | DirectoryList (names : List String)
  | XAttrStatusList (statuses : List (String × XRootDStatus))
  | XAttrList (attrs : List (String × String × XRootDStatus))
  | Text (value : String)
  deriving DecidableEq

/-- Modelled from the spec: the endpoint adapter (section 6), the `FileSystem` of
the header, whose class is not among the sources.  `submit` is the call itself:
it gives the immediate status (accepted, or a synchronous rejection), or raises
a fault while the request is marshalled.  `answer` is the outcome the endpoint
delivers to the handler of a request it accepted. -/
structure FileSystem where
  submit : Call → Except Thrown XRootDStatus
  answer : Call → XRootDStatus × Option Response

/-! ## Runs: trace and outcome -/

/-- What a run does that can be observed from outside the operation. -/
inductive Event
  | get (index : Nat)
  | issue (call : Call)
  | alloc (handler : HandlerRef)
  | release (handler : HandlerRef)
  deriving DecidableEq

/-- A computation: the events it caused, in order, and how it ended (a value, or
an exception that left it). -/
structure Step (α : Type) where
  trace : List Event
  out : Except Thrown α

/-- Sequencing: the second computation runs only if the first did not throw. -/
def Step.bind {α β : Type} (s : Step α) (f : α → Step β) : Step β :=
  match s.out with
  | Except.error t => { trace := s.trace, out := Except.error t }
  | Except.ok a => { trace := s.trace ++ (f a).trace, out := (f a).out }

instance : Monad Step where
  pure a := { trace := [], out := Except.ok a }
  bind := Step.bind

/-- The expression `std::get<index>( this->args ).Get()`. -/
def getArg {α : Type} (index : Nat) (a : Arg α) : Step α :=
  { trace := [Event.get index], out := a.Get }

/-- The expression `this->filesystem->M( ..., handler )`. -/
def issue (filesystem : FileSystem) (call : Call) : Step XRootDStatus :=
  { trace := [Event.issue call], out := filesystem.submit call }

/-- The expression `new UnpackXAttrStatus( h )` or `new UnpackXAttr( h )`. -/
def newHandler (wrapper : HandlerRef) : Step HandlerRef :=
  { trace := [Event.alloc wrapper], out := Except.ok wrapper }

/-- The statement `delete handler`. -/
def deleteHandler (wrapper : HandlerRef) : Step Unit :=
  { trace := [Event.release wrapper], out := Except.ok () }

/-- The two catch clauses every `RunImpl` with arguments ends with:
`catch( const PipelineException& ex ) { return ex.GetError(); }` and
`catch( const std::exception& ex ) { return XRootDStatus( stError, ex.what() ); }`.
Anything else that is thrown leaves the function. -/
def tryCatch (body : Step XRootDStatus) : Step XRootDStatus :=
  match body.out with
  | Except.ok _ => body
  | Except.error (Thrown.PipelineException error) =>
      { trace := body.trace, out := Except.ok error }
  | Except.error (Thrown.stdException what) =>
      { trace := body.trace, out := Except.ok (XRootDStatus.stError what) }
  | Except.error (Thrown.foreign _) => body

/-- A value of type `uint64_t`. -/
def uint64_t (n : Nat) : Nat := n % 2 ^ 64

/-- A value of type `uint8_t`. -/
def uint8_t (n : Nat) : Nat := n % 2 ^ 8

/-! ## The operations

Each `RunImpl` takes the file system and the handler of the operation
(`this->filesystem`, `this->handler.get()`) and the argument cells of
`this->args` in the order of the tuple. -/

/-- `LocateImpl::RunImpl`. -/
def LocateImpl.RunImpl (filesystem : FileSystem) (handler : HandlerRef)
    (PathArg : Arg String) (FlagsArg : Arg Nat) : Step XRootDStatus :=
  tryCatch do
    let path ← getArg 0 PathArg
    let flags ← getArg 1 FlagsArg
    issue filesystem (Call.Locate path flags handler)

/-- `DeepLocateImpl::RunImpl`. -/
def DeepLocateImpl.RunImpl (filesystem : FileSystem) (handler : HandlerRef)
    (PathArg : Arg String) (FlagsArg : Arg Nat) : Step XRootDStatus :=
  tryCatch do
    let path ← getArg 0 PathArg
    let flags ← getArg 1 FlagsArg
    issue filesystem (Call.DeepLocate path flags handler)

/-- `MvImpl::RunImpl`. -/
def MvImpl.RunImpl (filesystem : FileSystem) (handler : HandlerRef)
    (SourceArg : Arg String) (DestArg : Arg String) : Step XRootDStatus :=
  tryCatch do
    let source ← getArg 0 SourceArg
    let dest ← getArg 1 DestArg
    issue filesystem (Call.Mv source dest handler)

/-- `QueryImpl::RunImpl`. -/
def QueryImpl.RunImpl (filesystem : FileSystem) (handler : HandlerRef)
    (QueryCodeArg : Arg Nat) (BufferArg : Arg Buffer) : Step XRootDStatus :=
  tryCatch do
    let queryCode ← getArg 0 QueryCodeArg
    let buffer ← getArg 1 BufferArg
    issue filesystem (Call.Query queryCode buffer handler)

/-- `TruncateFsImpl::RunImpl`. -/
def TruncateFsImpl.RunImpl (filesystem : FileSystem) (handler : HandlerRef)
    (PathArg : Arg String) (SizeArg : Arg Nat) : Step XRootDStatus :=
  tryCatch do
    let path ← getArg 0 PathArg
    let size ← getArg 1 SizeArg
    issue filesystem (Call.Truncate path (uint64_t size) handler)

/-- `RmImpl::RunImpl`. -/
def RmImpl.RunImpl (filesystem : FileSystem) (handler : HandlerRef)
    (PathArg : Arg String) : Step XRootDStatus :=
  tryCatch do
    let path ← getArg 0 PathArg
    issue filesystem (Call.Rm path handler)

/-- `MkDirImpl::RunImpl`. -/
def MkDirImpl.RunImpl (filesystem : FileSystem) (handler : HandlerRef)
    (PathArg : Arg String) (FlagsArg : Arg Nat) (ModeArg : Arg Nat) : Step XRootDStatus :=
  tryCatch do
    let path ← getArg 0 PathArg
    let flags ← getArg 1 FlagsArg
    let mode ← getArg 2 ModeArg
    issue filesystem (Call.MkDir path flags mode handler)

/-- `RmDirImpl::RunImpl`. -/
def RmDirImpl.RunImpl (filesystem : FileSystem) (handler : HandlerRef)
    (PathArg : Arg String) : Step XRootDStatus :=
  tryCatch do
    let path ← getArg 0 PathArg
    issue filesystem (Call.RmDir path handler)

/-- `ChModImpl::RunImpl`. -/
def ChModImpl.RunImpl (filesystem : FileSystem) (handler : HandlerRef)
    (PathArg : Arg String) (ModeArg : Arg Nat) : Step XRootDStatus :=
  tryCatch do
    let path ← getArg 0 PathArg
    let mode ← getArg 1 ModeArg
    issue filesystem (Call.ChMod path mode handler)

/-- `PingImpl::RunImpl`: no argument, and no try block. -/
def PingImpl.RunImpl (filesystem : FileSystem) (handler : HandlerRef) : Step XRootDStatus :=
  issue filesystem (Call.Ping handler)

/-- `StatFsImpl::RunImpl`.  The method called on the file system is `RmDir`. -/
def StatFsImpl.RunImpl (filesystem : FileSystem) (handler : HandlerRef)
    (PathArg : Arg String) : Step XRootDStatus :=
  tryCatch do
    let path ← getArg 0 PathArg
    issue filesystem (Call.RmDir path handler)

/-- `StatVFSImpl::RunImpl`. -/
def StatVFSImpl.RunImpl (filesystem : FileSystem) (handler : HandlerRef)
    (PathArg : Arg String) : Step XRootDStatus :=
  tryCatch do
    let path ← getArg 0 PathArg
    issue filesystem (Call.StatVFS path handler)

/-- `ProtocolImpl::RunImpl`: no argument, and no try block. -/
def ProtocolImpl.RunImpl (filesystem : FileSystem) (handler : HandlerRef) : Step XRootDStatus :=
  issue filesystem (Call.Protocol handler)

/-- `DirListImpl::RunImpl`. -/
def DirListImpl.RunImpl (filesystem : FileSystem) (handler : HandlerRef)
    (PathArg : Arg String) (FlagsArg : Arg Nat) : Step XRootDStatus :=
  tryCatch do
    let path ← getArg 0 PathArg
    let flags ← getArg 1 FlagsArg
    issue filesystem (Call.DirList path flags handler)

/-- `SendInfoImpl::RunImpl`. -/
def SendInfoImpl.RunImpl (filesystem : FileSystem) (handler : HandlerRef)
    (InfoArg : Arg String) : Step XRootDStatus :=
  tryCatch do
    let info ← getArg 0 InfoArg
    issue filesystem (Call.SendInfo info handler)

/-- `PrepareImpl::RunImpl`. -/
def PrepareImpl.RunImpl (filesystem : FileSystem) (handler : HandlerRef)
    (FileListArg : Arg (List String)) (FlagsArg : Arg Nat) (PriorityArg : Arg Nat) :
    Step XRootDStatus :=
  tryCatch do
    let fileList ← getArg 0 FileListArg
    let flags ← getArg 1 FlagsArg
    let priority ← getArg 2 PriorityArg
    issue filesystem (Call.Prepare fileList flags (uint8_t priority) handler)

/-- `SetXAttrFsImpl::RunImpl`: the single attribute is wrapped in a vector and
the handler in an `UnpackXAttrStatus`, deleted if the request is not accepted. -/
def SetXAttrFsImpl.RunImpl (filesystem : FileSystem) (handler : HandlerRef)
    (PathArg : Arg String) (NameArg : Arg String) (ValueArg : Arg String) :
    Step XRootDStatus :=
  tryCatch do
    let path ← getArg 0 PathArg
    let name ← getArg 1 NameArg
    let value ← getArg 2 ValueArg
    let attrs : List xattr_t := [] ++ [(name, value)]
    let wrapper ← newHandler (HandlerRef.UnpackXAttrStatus handler)
    let st ← issue filesystem (Call.SetXAttr path attrs wrapper)
    if !st.IsOK then deleteHandler wrapper
    pure st

/-- `SetXAttrFsBulkImpl::RunImpl`. -/
def SetXAttrFsBulkImpl.RunImpl (filesystem : FileSystem) (handler : HandlerRef)
    (PathArg : Arg String) (AttrsArg : Arg (List xattr_t)) : Step XRootDStatus :=
  tryCatch do
    let path ← getArg 0 PathArg
    let attrs ← getArg 1 AttrsArg
    issue filesystem (Call.SetXAttr path attrs handler)

/-- `GetXAttrFsImpl::RunImpl`: the name is wrapped in a vector and the handler in
an `UnpackXAttr`, deleted if the request is not accepted. -/
def GetXAttrFsImpl.RunImpl (filesystem : FileSystem) (handler : HandlerRef)
    (PathArg : Arg String) (NameArg : Arg String) : Step XRootDStatus :=
  tryCatch do
    let path ← getArg 0 PathArg
    let name ← getArg 1 NameArg
    let attrs : List String := [] ++ [name]
    let wrapper ← newHandler (HandlerRef.UnpackXAttr handler)
    let st ← issue filesystem (Call.GetXAttr path attrs wrapper)
    if !st.IsOK then deleteHandler wrapper
    pure st

/-- `GetXAttrFsBulkImpl::RunImpl`. -/
def GetXAttrFsBulkImpl.RunImpl (filesystem : FileSystem) (handler : HandlerRef)
    (PathArg : Arg String) (NamesArg : Arg (List String)) : Step XRootDStatus :=
  tryCatch do
    let path ← getArg 0 PathArg
    let attrs ← getArg 1 NamesArg
    issue filesystem (Call.GetXAttr path attrs handler)

/-- `DelXAttrFsImpl::RunImpl`: the name is wrapped in a vector and the handler in
an `UnpackXAttrStatus`, deleted if the request is not accepted. -/
def DelXAttrFsImpl.RunImpl (filesystem : FileSystem) (handler : HandlerRef)
    (PathArg : Arg String) (NameArg : Arg String) : Step XRootDStatus :=
  tryCatch do
    let path ← getArg 0 PathArg
    let name ← getArg 1 NameArg
    let attrs : List String := [] ++ [name]
    let wrapper ← newHandler (HandlerRef.UnpackXAttrStatus handler)
    let st ← issue filesystem (Call.DelXAttr path attrs wrapper)
    if !st.IsOK then deleteHandler wrapper
    pure st

/-- `DelXAttrFsBulkImpl::RunImpl`. -/
def DelXAttrFsBulkImpl.RunImpl (filesystem : FileSystem) (handler : HandlerRef)
    (PathArg : Arg String) (NamesArg : Arg (List String)) : Step XRootDStatus :=
  tryCatch do
    let path ← getArg 0 PathArg
    let attrs ← getArg 1 NamesArg
    issue filesystem (Call.DelXAttr path attrs handler)

/-- `ListXAttrFsImpl::RunImpl`. -/
def ListXAttrFsImpl.RunImpl (filesystem : FileSystem) (handler : HandlerRef)
    (PathArg : Arg String) : Step XRootDStatus :=
  tryCatch do
    let path ← getArg 0 PathArg
    issue filesystem (Call.ListXAttr path handler)

/-! ## The catalogue -/

/-- An operation of the catalogue: its kind (one constructor for each class of
the header, from `LocateImpl` to `ListXAttrFsImpl`) with its argument cells, in
the order of the `Args...` of the class. -/
inductive Operation
  | Locate (path : Arg String) (flags : Arg Nat)
  | DeepLocate (path : Arg String) (flags : Arg Nat)
  | Mv (source : Arg String) (dest : Arg String)
  | Query (queryCode : Arg Nat) (buffer : Arg Buffer)
  | Truncate (path : Arg String) (size : Arg Nat)
  | Rm (path : Arg String)
  | MkDir (path : Arg String) (flags : Arg Nat) (mode : Arg Nat)
  | RmDir (path : Arg String)
  | ChMod (path : Arg String) (mode : Arg Nat)
  | Ping
  | Stat (path : Arg String)
  | StatVFS (path : Arg String)
  | Protocol
  | DirList (path : Arg String) (flags : Arg Nat)
  | SendInfo (info : Arg String)
  | Prepare (fileList : Arg (List String)) (flags : Arg Nat) (priority : Arg Nat)
  | SetXAttr (path : Arg String) (name : Arg String) (value : Arg String)
  | SetXAttrBulk (path : Arg String) (attrs : Arg (List xattr_t))
  | GetXAttr (path : Arg String) (name : Arg String)
  | GetXAttrBulk (path : Arg String) (names : Arg (List String))
  | DelXAttr (path : Arg String) (name : Arg String)
  | DelXAttrBulk (path : Arg String) (names : Arg (List String))
  | ListXAttr (path : Arg String)

/-- The `RunImpl` of the class of the operation. -/
def Operation.RunImpl (filesystem : FileSystem) (handler : HandlerRef) :
    Operation → Step XRootDStatus
  | Operation.Locate p f => LocateImpl.RunImpl filesystem handler p f
  | Operation.DeepLocate p f => DeepLocateImpl.RunImpl filesystem handler p f
  | Operation.Mv s d => MvImpl.RunImpl filesystem handler s d
  | Operation.Query c b => QueryImpl.RunImpl filesystem handler c b
  | Operation.Truncate p n => TruncateFsImpl.RunImpl filesystem handler p n
  | Operation.Rm p => RmImpl.RunImpl filesystem handler p
  | Operation.MkDir p f m => MkDirImpl.RunImpl filesystem handler p f m
  | Operation.RmDir p => RmDirImpl.RunImpl filesystem handler p
  | Operation.ChMod p m => ChModImpl.RunImpl filesystem handler p m
  | Operation.Ping => PingImpl.RunImpl filesystem handler
  | Operation.Stat p => StatFsImpl.RunImpl filesystem handler p
  | Operation.StatVFS p => StatVFSImpl.RunImpl filesystem handler p
  | Operation.Protocol => ProtocolImpl.RunImpl filesystem handler
  | Operation.DirList p f => DirListImpl.RunImpl filesystem handler p f
  | Operation.SendInfo i => SendInfoImpl.RunImpl filesystem handler i
  | Operation.Prepare l f q => PrepareImpl.RunImpl filesystem handler l f q
  | Operation.SetXAttr p n v => SetXAttrFsImpl.RunImpl filesystem handler p n v
  | Operation.SetXAttrBulk p a => SetXAttrFsBulkImpl.RunImpl filesystem handler p a
  | Operation.GetXAttr p n => GetXAttrFsImpl.RunImpl filesystem handler p n
  | Operation.GetXAttrBulk p a => GetXAttrFsBulkImpl.RunImpl filesystem handler p a
  | Operation.DelXAttr p n => DelXAttrFsImpl.RunImpl filesystem handler p n
  | Operation.DelXAttrBulk p a => DelXAttrFsBulkImpl.RunImpl filesystem handler p a
  | Operation.ListXAttr p => ListXAttrFsImpl.RunImpl filesystem handler p

/-- For each argument cell of the operation, in the order of the tuple, the
fault with which its `Get()` fails (`none` if the cell resolves). -/
def Operation.faults : Operation → List (Option Thrown)
  | Operation.Locate p f => [p.fault, f.fault]
  | Operation.DeepLocate p f => [p.fault, f.fault]
  | Operation.Mv s d => [s.fault, d.fault]
  | Operation.Query c b => [c.fault, b.fault]
  | Operation.Truncate p n => [p.fault, n.fault]
  | Operation.Rm p => [p.fault]
  | Operation.MkDir p f m => [p.fault, f.fault, m.fault]
  | Operation.RmDir p => [p.fault]
  | Operation.ChMod p m => [p.fault, m.fault]
  | Operation.Ping => []
  | Operation.Stat p => [p.fault]
  | Operation.StatVFS p => [p.fault]
  | Operation.Protocol => []
  | Operation.DirList p f => [p.fault, f.fault]
  | Operation.SendInfo i => [i.fault]
  | Operation.Prepare l f q => [l.fault, f.fault, q.fault]
  | Operation.SetXAttr p n v => [p.fault, n.fault, v.fault]
  | Operation.SetXAttrBulk p a => [p.fault, a.fault]
  | Operation.GetXAttr p n => [p.fault, n.fault]
  | Operation.GetXAttrBulk p a => [p.fault, a.fault]
  | Operation.DelXAttr p n => [p.fault, n.fault]
  | Operation.DelXAttrBulk p a => [p.fault, a.fault]
  | Operation.ListXAttr p => [p.fault]

/-- The requests handed to the file system in a trace, in order. -/
def issued : List Event → List Call
  | [] => []
  | Event.issue c :: rest => c :: issued rest
  | _ :: rest => issued rest

/-! ## Reading runs -/

/-- The first argument cell that fails, with its fault: the index and what is thrown. -/
def firstFault : List (Option Thrown) → Option (Nat × Thrown)
  | [] => none
  | some t :: _ => some (0, t)
  | none :: rest => (firstFault rest).map (fun p => (p.1 + 1, p.2))

/-- Argument `i` is the first one whose `Get()` fails, and it fails with `t`: every
cell before it resolves. -/
def FailsFirstAt (faults : List (Option Thrown)) (i : Nat) (t : Thrown) : Prop :=
  (∀ j, j < i → faults[j]? = some none) ∧ faults[i]? = some (some t)

/-- The run of a try block whose body reads the cells `0 .. i` and stops there,
with `t` thrown by the last read. -/
def stoppedAt (i : Nat) (t : Thrown) : Step XRootDStatus :=
  tryCatch { trace := (List.range (i + 1)).map Event.get, out := Except.error t }

/-- The class has a try block around the body of `RunImpl` (all classes but
`PingImpl` and `ProtocolImpl`). -/
def Operation.guarded : Operation → Bool
  | Operation.Ping => false
  | Operation.Protocol => false
  | _ => true

/-- The handler `g` is the handler `h` of the operation or an unpacking wrapper
allocated around it. -/
def servesHandler (h : HandlerRef) (g : HandlerRef) : Prop :=
  g = h ∨ g = HandlerRef.UnpackXAttrStatus h ∨ g = HandlerRef.UnpackXAttr h

/-- A body that hands exactly one request to the file system, with a handler that
serves `h`, and ends the way that call ends. -/
def OneCall (fs : FileSystem) (h : HandlerRef) (s : Step XRootDStatus) : Prop :=
  ∃ c, issued s.trace = [c] ∧ servesHandler h c.handler ∧ s.out = fs.submit c

/-! ## Completion: handlers, `Run`, pipelines

None of this is in the header: the handlers are declared in
`XrdClOperationHandlers.hh`, `Run` and the pipeline in `XrdClOperations.hh`. -/

/-- Modelled from the spec: one invocation of a Completion Handler (section 4.3):
the handler invoked, the status and the optional typed response it receives. -/
structure Delivery where
  handler : HandlerRef
  status : XRootDStatus
  response : Option Response
  deriving DecidableEq

/-- Modelled from the spec: `HandleResponse` of a handler.  The handler of the
operation receives the outcome as it is.  The wrappers of
`XrdClOperationHandlers.hh` (not among the sources) "unpack a one-element list
back into a scalar response" (section 9) and hand it to the handler they wrap:
the status of the only attribute for `UnpackXAttrStatus`, its status and its
value for `UnpackXAttr`; a failure is passed on as a scalar status. -/
def HandlerRef.HandleResponse : HandlerRef → XRootDStatus → Option Response → List Delivery
  | HandlerRef.pipeline id, st, r =>
      [{ handler := HandlerRef.pipeline id, status := st, response := r }]
  | HandlerRef.UnpackXAttrStatus inner, st, r =>
      match st.IsOK, r with
      | true, some (Response.XAttrStatusList [(_, s)]) => inner.HandleResponse s none
      | _, _ => inner.HandleResponse st none
  | HandlerRef.UnpackXAttr inner, st, r =>
      match st.IsOK, r with
      | true, some (Response.XAttrList [(_, v, s)]) =>
          inner.HandleResponse s (some (Response.Text v))
      | _, _ => inner.HandleResponse st none

/-- Modelled from the spec: the endpoint contract of section 6.  For each request
handed to it the endpoint invokes `onComplete` exactly once if it accepted the
request, and never if it rejected it synchronously or raised a fault. -/
def FileSystem.completions (fs : FileSystem) : List Call → List Delivery
  | [] => []
  | c :: rest =>
      (match fs.submit c with
        | Except.ok st =>
            if st.IsOK then c.handler.HandleResponse (fs.answer c).1 (fs.answer c).2 else []
        | Except.error _ => []) ++ fs.completions rest

/-- Modelled from the spec: the status a fault is converted to at the boundary of
`run()` (sections 4.2 and 7): a pipeline error keeps the status it carries, any
other fault becomes a `Local` status. -/
def Thrown.status : Thrown → XRootDStatus
  | Thrown.PipelineException error => error
  | Thrown.stdException what => XRootDStatus.stError what
  | Thrown.foreign _ => XRootDStatus.stError ""

/-- Modelled from the spec: `run()` of a Runnable operation (sections 4.2 and 7),
the part of `XrdClOperations.hh` around `RunImpl`.  When the submission fails the
handler of the operation is invoked with the failing status, a fault that leaves
`RunImpl` being converted to a status; when it is accepted the handler is left
to the endpoint.  The result lists every invocation of a handler that the run
leads to. -/
def Operation.Run (fs : FileSystem) (id : Nat) (op : Operation) : List Delivery :=
  let r := op.RunImpl fs (HandlerRef.pipeline id)
  let forced : List Delivery :=
    match r.out with
    | Except.ok st =>
        if st.IsOK then []
        else [{ handler := HandlerRef.pipeline id, status := st, response := none }]
    | Except.error t =>
        [{ handler := HandlerRef.pipeline id, status := t.status, response := none }]
  forced ++ fs.completions (issued r.trace)

/-- Modelled from the spec: a stage of a pipeline (section 3, "Pipeline"): the
operation, whose Forwarded cells read the result slot of the stage before. -/
abbrev Stage := Option Response → Operation

/-- Modelled from the spec: what a pipeline run can be observed to do: the events
of its stages, each with the index of the stage, and what the terminal handler
receives. -/
structure PipelineRun where
  trace : List (Nat × Event)
  terminal : List (XRootDStatus × Option Response)

/-- Modelled from the spec: pipeline sequencing (sections 4.3 and 4.4).  Stage `k`
runs with the forwarding handler `k`.  When that handler receives a success and
a stage follows, the response is written to the slot and the next stage runs;
when it receives a failure the next stage is not run and the failing status
goes straight to the terminal handler, as does the outcome of the last stage. -/
def Pipeline.Run (fs : FileSystem) : List Stage → Nat → Option Response → PipelineRun
  | [], _, _ => { trace := [], terminal := [] }
  | stage :: rest, k, slot =>
      let op := stage slot
      let own := (op.RunImpl fs (HandlerRef.pipeline k)).trace.map (fun e => (k, e))
      (op.Run fs k).foldl
        (fun acc d =>
          if d.status.IsOK && !rest.isEmpty then
            { trace := acc.trace ++ (Pipeline.Run fs rest (k + 1) d.response).trace,
              terminal := acc.terminal ++ (Pipeline.Run fs rest (k + 1) d.response).terminal }
          else
            { trace := acc.trace, terminal := acc.terminal ++ [(d.status, d.response)] })
        { trace := own, terminal := [] }

/-! ## Stub file systems -/

/-- The status `OK`. -/
def XRootDStatus.OK : XRootDStatus :=
  { origin := Origin.None, code := 0, message := "" }

/-- A stub file system that accepts every request and answers a stat request
with `(ok, StatInfo{size:42})`, any other request with `(ok, no response)`. -/
def statStub : FileSystem :=
  { submit := fun _ => Except.ok XRootDStatus.OK
    answer := fun c =>
      match c with
      | Call.Stat _ _ => (XRootDStatus.OK, some (Response.StatInfo 42))
      | _ => (XRootDStatus.OK, none) }

/-- A stub file system whose every call raises the fault `t`. -/
def faultyStub (t : Thrown) : FileSystem :=
  { submit := fun _ => Except.error t
    answer := fun _ => (XRootDStatus.OK, none) }

/-- A stub file system that rejects every request synchronously with `st`. -/
def rejectingStub (st : XRootDStatus) : FileSystem :=
  { submit := fun _ => Except.ok st
    answer := fun _ => (XRootDStatus.OK, none) }

/-- A stub file system that accepts every request and answers it with `(e, r)`. -/
def answeringStub (e : XRootDStatus) (r : Option Response) : FileSystem :=
  { submit := fun _ => Except.ok XRootDStatus.OK
    answer := fun _ => (e, r) }

/-- A stub file system that answers the set request of extended attributes with
the immediate status `a`, the get request with `b`, the delete request with `c`,
and accepts every other request. -/
def mixedStub (a b c : XRootDStatus) : FileSystem :=
  { submit := fun call =>
      match call with
      | Call.SetXAttr _ _ _ => Except.ok a
      | Call.GetXAttr _ _ _ => Except.ok b
      | Call.DelXAttr _ _ _ => Except.ok c
      | _ => Except.ok XRootDStatus.OK
    answer := fun _ => (XRootDStatus.OK, none) }

/-! ## Declared responses -/

/-- The response descriptor a class declares, `Resp<T>`, by its type `T`: `void`,
a scalar type, or a vector (`std::vector<XAttrStatus>`, `std::vector<XAttr>`). -/
inductive Resp
  | void
  | LocationInfo
  | Buffer
  | StatInfo
  | StatInfoVFS
  | ProtocolInfo
  | DirectoryList
  | string
  | vectorXAttrStatus
  | vectorXAttr
  deriving DecidableEq

/-- The `Response` parameter that the class of the operation passes to
`FileSystemOperation`. -/
def Operation.declaredResp : Operation → Resp
  | Operation.Locate _ _ => Resp.LocationInfo
  | Operation.DeepLocate _ _ => Resp.LocationInfo
  | Operation.Mv _ _ => Resp.void
  | Operation.Query _ _ => Resp.Buffer
  | Operation.Truncate _ _ => Resp.void
  | Operation.Rm _ => Resp.void
  | Operation.MkDir _ _ _ => Resp.void
  | Operation.RmDir _ => Resp.void
  | Operation.ChMod _ _ => Resp.void
  | Operation.Ping => Resp.void
  | Operation.Stat _ => Resp.StatInfo
  | Operation.StatVFS _ => Resp.StatInfoVFS
  | Operation.Protocol => Resp.ProtocolInfo
  | Operation.DirList _ _ => Resp.DirectoryList
  | Operation.SendInfo _ => Resp.Buffer
  | Operation.Prepare _ _ _ => Resp.Buffer
  | Operation.SetXAttr _ _ _ => Resp.void
  | Operation.SetXAttrBulk _ _ => Resp.vectorXAttrStatus
  | Operation.GetXAttr _ _ => Resp.string
  | Operation.GetXAttrBulk _ _ => Resp.vectorXAttr
  | Operation.DelXAttr _ _ => Resp.void
  | Operation.DelXAttrBulk _ _ => Resp.vectorXAttrStatus
  | Operation.ListXAttr _ => Resp.vectorXAttr

/-- The declared response is a list of per-attribute results. -/
def Resp.isVector : Resp → Bool
  | Resp.vectorXAttrStatus => true
  | Resp.vectorXAttr => true
  | _ => false

/-! ## Operation objects: `FileSystemOperation`, the factories, `ToString` -/

/-- A `FileSystem*`: the address of a file system object. -/
structure FileSystemPtr where
  address : Nat
  deriving DecidableEq

/-- A `FileSystem&`: a file system object, as the lvalue at an address. -/
structure FileSystemRef where
  address : Nat
  deriving DecidableEq

/-- The expression `&fs` for a reference `fs`. -/
def FileSystemRef.addressOf (fs : FileSystemRef) : FileSystemPtr :=
  { address := fs.address }

/-- The file system objects of a program state: the object a pointer points to. -/
abbrev Memory := FileSystemPtr → FileSystem

/-- The class template `FileSystemOperation<Derived, HasHndl, Response, Args...>`:
the state `HasHndl` is a parameter of the type; an object holds the member
`filesystem` declared by the class and the tuple `args` it inherits.  `Derived`,
`Response` and `Args...` are fixed by the kind of the operation, which `args`
records. -/
structure FileSystemOperation (HasHndl : Bool) where
  filesystem : FileSystemPtr
  args : Operation

/-- The state of an operation object, the template argument `HasHndl` of its type. -/
def FileSystemOperation.HasHndl {b : Bool} (_ : FileSystemOperation b) : Bool := b

/-- The constructor `FileSystemOperation( FileSystem *fs, Args... args )`.  It
initialises the base `ConcreteOperation<Derived, false, Response, Args...>`, so it
is a constructor of the class with `HasHndl = false` only. -/
def FileSystemOperation.ofPointer (fs : FileSystemPtr) (args : Operation) :
    FileSystemOperation false :=
  { filesystem := fs, args := args }

/-- The constructor `FileSystemOperation( FileSystem &fs, Args... args )`, which
delegates to `FileSystemOperation( &fs, std::move( args )... )`. -/
def FileSystemOperation.ofReference (fs : FileSystemRef) (args : Operation) :
    FileSystemOperation false :=
  FileSystemOperation.ofPointer fs.addressOf args

/-- The move constructor from other states, the constructor template
`template<bool from> FileSystemOperation( FileSystemOperation<Derived, from, ...> && op )`:
an object of the class with state `HasHndl` from an object in any state `src`
(the `from` of the header).  The base is constructed from `std::move( op )`, which
hands over the argument tuple, and `filesystem` is initialised with
`op.filesystem`. -/
def FileSystemOperation.convert {src : Bool} (HasHndl : Bool) (op : FileSystemOperation src) :
    FileSystemOperation HasHndl :=
  { filesystem := op.filesystem, args := op.args }

/-- Modelled from the spec: the cell after a call of `Get()` (`XrdClArg.hh` is not
among the sources).  Section 4.1: `Get()` returns a copy of the value, "calling
`get()` twice on a Bound cell is legal and idempotent; on a consumed Forwarded
cell it returns the same resolved value"; so the call leaves the cell as it
is. -/
def Arg.afterGet {α : Type} : Arg α → Arg α
  | Arg.bound v => Arg.bound v
  | Arg.forwarded slot => Arg.forwarded slot
  | Arg.raising t => Arg.raising t

/-! ## Member functions: `RunImpl` on the state of `*this`

The bodies of `RunImpl` once more, statement by statement, as computations on
the members of the object, so that the object after a run is what the body
makes of it. -/

/-- The members of `*this` that a `RunImpl` body can reach, for a class whose
argument tuple has type `Args`: the pointer `filesystem` and the tuple `args`. -/
structure This (Args : Type) where
  filesystem : FileSystemPtr
  args : Args

/-- The end of a member function: the events it caused, how it ended, and the
members of the object when it ended. -/
structure Ran (σ α : Type) where
  trace : List Event
  out : Except Thrown α
  state : σ

/-- The run of a member function, without the state it leaves. -/
def Ran.step {σ α : Type} (r : Ran σ α) : Step α :=
  { trace := r.trace, out := r.out }

/-- The same run, with the state it leaves seen through `g`. -/
def Ran.mapState {σ τ α : Type} (r : Ran σ α) (g : σ → τ) : Ran τ α :=
  { trace := r.trace, out := r.out, state := g r.state }

/-- A member function body: a computation from the state of the object. -/
def Member (σ α : Type) : Type := σ → Ran σ α

/-- Sequencing of statements: the second runs, from the state the first left, only
if the first did not throw. -/
def Member.bind {σ α β : Type} (m : Member σ α) (f : α → Member σ β) : Member σ β :=
  fun s =>
    match (m s).out with
    | Except.error t => { trace := (m s).trace, out := Except.error t, state := (m s).state }
    | Except.ok a =>
        { trace := (m s).trace ++ (f a (m s).state).trace
          out := (f a (m s).state).out
          state := (f a (m s).state).state }

instance (σ : Type) : Monad (Member σ) where
  pure a := fun s => { trace := [], out := Except.ok a, state := s }
  bind := Member.bind

/-- The cell `std::get<index>( this->args )` of a tuple of type `Args`: how it is
read from the tuple and how the tuple is rebuilt around it. -/
structure CellOf (Args α : Type) where
  index : Nat
  get : Args → Arg α
  set : Arg α → Args → Args

/-- Rebuilding the tuple around the cell just read gives the tuple. -/
def CellOf.Lawful {Args α : Type} (c : CellOf Args α) : Prop :=
  ∀ t, c.set (c.get t) t = t

/-- The only cell of a one-element tuple. -/
def cell1_0 {α : Type} : CellOf (Arg α) α :=
  { index := 0, get := fun t => t, set := fun a _ => a }

/-- Cell 0 of a pair. -/
def cell2_0 {α β : Type} : CellOf (Arg α × Arg β) α :=
  { index := 0, get := fun t => t.1, set := fun a t => (a, t.2) }

/-- Cell 1 of a pair. -/
def cell2_1 {α β : Type} : CellOf (Arg α × Arg β) β :=
  { index := 1, get := fun t => t.2, set := fun b t => (t.1, b) }

/-- Cell 0 of a triple. -/
def cell3_0 {α β γ : Type} : CellOf (Arg α × Arg β × Arg γ) α :=
  { index := 0, get := fun t => t.1, set := fun a t => (a, t.2.1, t.2.2) }

/-- Cell 1 of a triple. -/
def cell3_1 {α β γ : Type} : CellOf (Arg α × Arg β × Arg γ) β :=
  { index := 1, get := fun t => t.2.1, set := fun b t => (t.1, b, t.2.2) }

/-- Cell 2 of a triple. -/
def cell3_2 {α β γ : Type} : CellOf (Arg α × Arg β × Arg γ) γ :=
  { index := 2, get := fun t => t.2.2, set := fun c t => (t.1, t.2.1, c) }

/-- The expression `std::get<index>( this->args ).Get()` as a statement on the
object: the value or the fault of `Get()`, and the cell left as `Get()` leaves
it. -/
def Member.Get {Args α : Type} (c : CellOf Args α) : Member (This Args) α :=
  fun s =>
    { trace := [Event.get c.index]
      out := (c.get s.args).Get
      state := { filesystem := s.filesystem, args := c.set (c.get s.args).afterGet s.args } }

/-- The expression `this->filesystem->M( ..., handler )` as a statement on the
object: the call goes to the file system the pointer points to; no member is
written. -/
def Member.call {Args : Type} (memory : Memory) (call : Call) :
    Member (This Args) XRootDStatus :=
  fun s =>
    { trace := [Event.issue call], out := (memory s.filesystem).submit call, state := s }

/-- The expression `new UnpackXAttrStatus( h )` or `new UnpackXAttr( h )`. -/
def Member.newHandler {σ : Type} (wrapper : HandlerRef) : Member σ HandlerRef :=
  fun s => { trace := [Event.alloc wrapper], out := Except.ok wrapper, state := s }

/-- The statement `delete handler`, on the local pointer to the wrapper. -/
def Member.deleteHandler {σ : Type} (wrapper : HandlerRef) : Member σ Unit :=
  fun s => { trace := [Event.release wrapper], out := Except.ok (), state := s }

/-- The two catch clauses, as in `tryCatch`; the object is as the body left it. -/
def Member.tryCatch {σ : Type} (body : Member σ XRootDStatus) : Member σ XRootDStatus :=
  fun s =>
    match (body s).out with
    | Except.ok _ => body s
    | Except.error (Thrown.PipelineException error) =>
        { trace := (body s).trace, out := Except.ok error, state := (body s).state }
    | Except.error (Thrown.stdException what) =>
        { trace := (body s).trace, out := Except.ok (XRootDStatus.stError what)
          state := (body s).state }
    | Except.error (Thrown.foreign _) => body s

/-- The member function leaves the object as it found it. -/
def Preserves {σ α : Type} (m : Member σ α) : Prop :=
  ∀ s, (m s).state = s

/-- `LocateImpl::RunImpl` as a member function. -/
def LocateImpl.RunImplOn (memory : Memory) (handler : HandlerRef) :
    Member (This (Arg String × Arg Nat)) XRootDStatus :=
  Member.tryCatch do
    let path ← Member.Get cell2_0
    let flags ← Member.Get cell2_1
    Member.call memory (Call.Locate path flags handler)

/-- `DeepLocateImpl::RunImpl` as a member function. -/
def DeepLocateImpl.RunImplOn (memory : Memory) (handler : HandlerRef) :
    Member (This (Arg String × Arg Nat)) XRootDStatus :=
  Member.tryCatch do
    let path ← Member.Get cell2_0
    let flags ← Member.Get cell2_1
    Member.call memory (Call.DeepLocate path flags handler)

/-- `MvImpl::RunImpl` as a member function. -/
def MvImpl.RunImplOn (memory : Memory) (handler : HandlerRef) :
    Member (This (Arg String × Arg String)) XRootDStatus :=
  Member.tryCatch do
    let source ← Member.Get cell2_0
    let dest ← Member.Get cell2_1
    Member.call memory (Call.Mv source dest handler)

/-- `QueryImpl::RunImpl` as a member function. -/
def QueryImpl.RunImplOn (memory : Memory) (handler : HandlerRef) :
    Member (This (Arg Nat × Arg Buffer)) XRootDStatus :=
  Member.tryCatch do
    let queryCode ← Member.Get cell2_0
    let buffer ← Member.Get cell2_1
    Member.call memory (Call.Query queryCode buffer handler)

/-- `TruncateFsImpl::RunImpl` as a member function. -/
def TruncateFsImpl.RunImplOn (memory : Memory) (handler : HandlerRef) :
    Member (This (Arg String × Arg Nat)) XRootDStatus :=
  Member.tryCatch do
    let path ← Member.Get cell2_0
    let size ← Member.Get cell2_1
    Member.call memory (Call.Truncate path (uint64_t size) handler)

/-- `RmImpl::RunImpl` as a member function. -/
def RmImpl.RunImplOn (memory : Memory) (handler : HandlerRef) :
    Member (This (Arg String)) XRootDStatus :=
  Member.tryCatch do
    let path ← Member.Get cell1_0
    Member.call memory (Call.Rm path handler)

/-- `MkDirImpl::RunImpl` as a member function. -/
def MkDirImpl.RunImplOn (memory : Memory) (handler : HandlerRef) :
    Member (This (Arg String × Arg Nat × Arg Nat)) XRootDStatus :=
  Member.tryCatch do
    let path ← Member.Get cell3_0
    let flags ← Member.Get cell3_1
    let mode ← Member.Get cell3_2
    Member.call memory (Call.MkDir path flags mode handler)

/-- `RmDirImpl::RunImpl` as a member function. -/
def RmDirImpl.RunImplOn (memory : Memory) (handler : HandlerRef) :
    Member (This (Arg String)) XRootDStatus :=
  Member.tryCatch do
    let path ← Member.Get cell1_0
    Member.call memory (Call.RmDir path handler)

/-- `ChModImpl::RunImpl` as a member function. -/
def ChModImpl.RunImplOn (memory : Memory) (handler : HandlerRef) :
    Member (This (Arg String × Arg Nat)) XRootDStatus :=
  Member.tryCatch do
    let path ← Member.Get cell2_0
    let mode ← Member.Get cell2_1
    Member.call memory (Call.ChMod path mode handler)

/-- `PingImpl::RunImpl` as a member function. -/
def PingImpl.RunImplOn (memory : Memory) (handler : HandlerRef) :
    Member (This Unit) XRootDStatus :=
  Member.call memory (Call.Ping handler)

/-- `StatFsImpl::RunImpl` as a member function. -/
def StatFsImpl.RunImplOn (memory : Memory) (handler : HandlerRef) :
    Member (This (Arg String)) XRootDStatus :=
  Member.tryCatch do
    let path ← Member.Get cell1_0
    Member.call memory (Call.RmDir path handler)

/-- `StatVFSImpl::RunImpl` as a member function. -/
def StatVFSImpl.RunImplOn (memory : Memory) (handler : HandlerRef) :
    Member (This (Arg String)) XRootDStatus :=
  Member.tryCatch do
    let path ← Member.Get cell1_0
    Member.call memory (Call.StatVFS path handler)

/-- `ProtocolImpl::RunImpl` as a member function. -/
def ProtocolImpl.RunImplOn (memory : Memory) (handler : HandlerRef) :
    Member (This Unit) XRootDStatus :=
  Member.call memory (Call.Protocol handler)

/-- `DirListImpl::RunImpl` as a member function. -/
def DirListImpl.RunImplOn (memory : Memory) (handler : HandlerRef) :
    Member (This (Arg String × Arg Nat)) XRootDStatus :=
  Member.tryCatch do
    let path ← Member.Get cell2_0
    let flags ← Member.Get cell2_1
    Member.call memory (Call.DirList path flags handler)

/-- `SendInfoImpl::RunImpl` as a member function. -/
def SendInfoImpl.RunImplOn (memory : Memory) (handler : HandlerRef) :
    Member (This (Arg String)) XRootDStatus :=
  Member.tryCatch do
    let info ← Member.Get cell1_0
    Member.call memory (Call.SendInfo info handler)

/-- `PrepareImpl::RunImpl` as a member function. -/
def PrepareImpl.RunImplOn (memory : Memory) (handler : HandlerRef) :
    Member (This (Arg (List String) × Arg Nat × Arg Nat)) XRootDStatus :=
  Member.tryCatch do
    let fileList ← Member.Get cell3_0
    let flags ← Member.Get cell3_1
    let priority ← Member.Get cell3_2
    Member.call memory (Call.Prepare fileList flags (uint8_t priority) handler)

/-- `SetXAttrFsImpl::RunImpl` as a member function. -/
def SetXAttrFsImpl.RunImplOn (memory : Memory) (handler : HandlerRef) :
    Member (This (Arg String × Arg String × Arg String)) XRootDStatus :=
  Member.tryCatch do
    let path ← Member.Get cell3_0
    let name ← Member.Get cell3_1
    let value ← Member.Get cell3_2
    let attrs : List xattr_t := [] ++ [(name, value)]
    let wrapper ← Member.newHandler (HandlerRef.UnpackXAttrStatus handler)
    let st ← Member.call memory (Call.SetXAttr path attrs wrapper)
    if !st.IsOK then Member.deleteHandler wrapper
    pure st

/-- `SetXAttrFsBulkImpl::RunImpl` as a member function. -/
def SetXAttrFsBulkImpl.RunImplOn (memory : Memory) (handler : HandlerRef) :
    Member (This (Arg String × Arg (List xattr_t))) XRootDStatus :=
  Member.tryCatch do
    let path ← Member.Get cell2_0
    let attrs ← Member.Get cell2_1
    Member.call memory (Call.SetXAttr path attrs handler)

/-- `GetXAttrFsImpl::RunImpl` as a member function. -/
def GetXAttrFsImpl.RunImplOn (memory : Memory) (handler : HandlerRef) :
    Member (This (Arg String × Arg String)) XRootDStatus :=
  Member.tryCatch do
    let path ← Member.Get cell2_0
    let name ← Member.Get cell2_1
    let attrs : List String := [] ++ [name]
    let wrapper ← Member.newHandler (HandlerRef.UnpackXAttr handler)
    let st ← Member.call memory (Call.GetXAttr path attrs wrapper)
    if !st.IsOK then Member.deleteHandler wrapper
    pure st

/-- `GetXAttrFsBulkImpl::RunImpl` as a member function. -/
def GetXAttrFsBulkImpl.RunImplOn (memory : Memory) (handler : HandlerRef) :
    Member (This (Arg String × Arg (List String))) XRootDStatus :=
  Member.tryCatch do
    let path ← Member.Get cell2_0
    let attrs ← Member.Get cell2_1
    Member.call memory (Call.GetXAttr path attrs handler)

/-- `DelXAttrFsImpl::RunImpl` as a member function. -/
def DelXAttrFsImpl.RunImplOn (memory : Memory) (handler : HandlerRef) :
    Member (This (Arg String × Arg String)) XRootDStatus :=
  Member.tryCatch do
    let path ← Member.Get cell2_0
    let name ← Member.Get cell2_1
    let attrs : List String := [] ++ [name]
    let wrapper ← Member.newHandler (HandlerRef.UnpackXAttrStatus handler)
    let st ← Member.call memory (Call.DelXAttr path attrs wrapper)
    if !st.IsOK then Member.deleteHandler wrapper
    pure st

/-- `DelXAttrFsBulkImpl::RunImpl` as a member function. -/
def DelXAttrFsBulkImpl.RunImplOn (memory : Memory) (handler : HandlerRef) :
    Member (This (Arg String × Arg (List String))) XRootDStatus :=
  Member.tryCatch do
    let path ← Member.Get cell2_0
    let attrs ← Member.Get cell2_1
    Member.call memory (Call.DelXAttr path attrs handler)

/-- `ListXAttrFsImpl::RunImpl` as a member function. -/
def ListXAttrFsImpl.RunImplOn (memory : Memory) (handler : HandlerRef) :
    Member (This (Arg String)) XRootDStatus :=
  Member.tryCatch do
    let path ← Member.Get cell1_0
    Member.call memory (Call.ListXAttr path handler)

/-- The `RunImpl` of the class of the operation, as a member function run on an
object with the pointer `filesystem` and the argument tuple of the operation. -/
def Operation.RunImplOn (memory : Memory) (handler : HandlerRef) (filesystem : FileSystemPtr) :
    Operation → Ran (This Operation) XRootDStatus
  | Operation.Locate a0 a1 =>
      (LocateImpl.RunImplOn memory handler ⟨filesystem, (a0, a1)⟩).mapState
        fun s => ⟨s.filesystem, Operation.Locate s.args.1 s.args.2⟩
  | Operation.DeepLocate a0 a1 =>
      (DeepLocateImpl.RunImplOn memory handler ⟨filesystem, (a0, a1)⟩).mapState
        fun s => ⟨s.filesystem, Operation.DeepLocate s.args.1 s.args.2⟩
  | Operation.Mv a0 a1 =>
      (MvImpl.RunImplOn memory handler ⟨filesystem, (a0, a1)⟩).mapState
        fun s => ⟨s.filesystem, Operation.Mv s.args.1 s.args.2⟩
  | Operation.Query a0 a1 =>
      (QueryImpl.RunImplOn memory handler ⟨filesystem, (a0, a1)⟩).mapState
        fun s => ⟨s.filesystem, Operation.Query s.args.1 s.args.2⟩
  | Operation.Truncate a0 a1 =>
      (TruncateFsImpl.RunImplOn memory handler ⟨filesystem, (a0, a1)⟩).mapState
        fun s => ⟨s.filesystem, Operation.Truncate s.args.1 s.args.2⟩
  | Operation.Rm a0 =>
      (RmImpl.RunImplOn memory handler ⟨filesystem, a0⟩).mapState
        fun s => ⟨s.filesystem, Operation.Rm s.args⟩
  | Operation.MkDir a0 a1 a2 =>
      (MkDirImpl.RunImplOn memory handler ⟨filesystem, (a0, a1, a2)⟩).mapState
        fun s => ⟨s.filesystem, Operation.MkDir s.args.1 s.args.2.1 s.args.2.2⟩
  | Operation.RmDir a0 =>
      (RmDirImpl.RunImplOn memory handler ⟨filesystem, a0⟩).mapState
        fun s => ⟨s.filesystem, Operation.RmDir s.args⟩
  | Operation.ChMod a0 a1 =>
      (ChModImpl.RunImplOn memory handler ⟨filesystem, (a0, a1)⟩).mapState
        fun s => ⟨s.filesystem, Operation.ChMod s.args.1 s.args.2⟩
  | Operation.Ping =>
      (PingImpl.RunImplOn memory handler ⟨filesystem, ()⟩).mapState
        fun s => ⟨s.filesystem, Operation.Ping⟩
  | Operation.Stat a0 =>
      (StatFsImpl.RunImplOn memory handler ⟨filesystem, a0⟩).mapState
        fun s => ⟨s.filesystem, Operation.Stat s.args⟩
  | Operation.StatVFS a0 =>
      (StatVFSImpl.RunImplOn memory handler ⟨filesystem, a0⟩).mapState
        fun s => ⟨s.filesystem, Operation.StatVFS s.args⟩
  | Operation.Protocol =>
      (ProtocolImpl.RunImplOn memory handler ⟨filesystem, ()⟩).mapState
        fun s => ⟨s.filesystem, Operation.Protocol⟩
  | Operation.DirList a0 a1 =>
      (DirListImpl.RunImplOn memory handler ⟨filesystem, (a0, a1)⟩).mapState
        fun s => ⟨s.filesystem, Operation.DirList s.args.1 s.args.2⟩
  | Operation.SendInfo a0 =>
      (SendInfoImpl.RunImplOn memory handler ⟨filesystem, a0⟩).mapState
        fun s => ⟨s.filesystem, Operation.SendInfo s.args⟩
  | Operation.Prepare a0 a1 a2 =>
      (PrepareImpl.RunImplOn memory handler ⟨filesystem, (a0, a1, a2)⟩).mapState
        fun s => ⟨s.filesystem, Operation.Prepare s.args.1 s.args.2.1 s.args.2.2⟩
  | Operation.SetXAttr a0 a1 a2 =>
      (SetXAttrFsImpl.RunImplOn memory handler ⟨filesystem, (a0, a1, a2)⟩).mapState
        fun s => ⟨s.filesystem, Operation.SetXAttr s.args.1 s.args.2.1 s.args.2.2⟩
  | Operation.SetXAttrBulk a0 a1 =>
      (SetXAttrFsBulkImpl.RunImplOn memory handler ⟨filesystem, (a0, a1)⟩).mapState
        fun s => ⟨s.filesystem, Operation.SetXAttrBulk s.args.1 s.args.2⟩
  | Operation.GetXAttr a0 a1 =>
      (GetXAttrFsImpl.RunImplOn memory handler ⟨filesystem, (a0, a1)⟩).mapState
        fun s => ⟨s.filesystem, Operation.GetXAttr s.args.1 s.args.2⟩
  | Operation.GetXAttrBulk a0 a1 =>
      (GetXAttrFsBulkImpl.RunImplOn memory handler ⟨filesystem, (a0, a1)⟩).mapState
        fun s => ⟨s.filesystem, Operation.GetXAttrBulk s.args.1 s.args.2⟩
  | Operation.DelXAttr a0 a1 =>
      (DelXAttrFsImpl.RunImplOn memory handler ⟨filesystem, (a0, a1)⟩).mapState
        fun s => ⟨s.filesystem, Operation.DelXAttr s.args.1 s.args.2⟩
  | Operation.DelXAttrBulk a0 a1 =>
      (DelXAttrFsBulkImpl.RunImplOn memory handler ⟨filesystem, (a0, a1)⟩).mapState
        fun s => ⟨s.filesystem, Operation.DelXAttrBulk s.args.1 s.args.2⟩
  | Operation.ListXAttr a0 =>
      (ListXAttrFsImpl.RunImplOn memory handler ⟨filesystem, a0⟩).mapState
        fun s => ⟨s.filesystem, Operation.ListXAttr s.args⟩

/-- `RunImpl` as a member function of an operation object whose handler is
`handler`: the run, on the file system that `filesystem` points to, and the
object after the run, whose members are those the body of the class leaves
(`Operation.RunImplOn`). -/
def FileSystemOperation.RunImpl {b : Bool} (memory : Memory) (handler : HandlerRef)
    (op : FileSystemOperation b) : Step XRootDStatus × FileSystemOperation b :=
  (op.args.RunImpl (memory op.filesystem) handler,
    { filesystem := (Operation.RunImplOn memory handler op.filesystem op.args).state.filesystem
      args := (Operation.RunImplOn memory handler op.filesystem op.args).state.args })

/-- The factory `Truncate( FileSystem *fs, Arg<std::string> path, Arg<uint64_t> size )`. -/
def Truncate (fs : FileSystemPtr) (path : Arg String) (size : Arg Nat) :
    FileSystemOperation false :=
  FileSystemOperation.ofPointer fs (Operation.Truncate path size)

/-- The factory `Truncate( FileSystem &fs, Arg<std::string> path, Arg<uint64_t> size )`. -/
def TruncateRef (fs : FileSystemRef) (path : Arg String) (size : Arg Nat) :
    FileSystemOperation false :=
  FileSystemOperation.ofReference fs (Operation.Truncate path size)

/-- The factory `Stat( FileSystem *fs, Arg<std::string> path )`. -/
def Stat (fs : FileSystemPtr) (path : Arg String) : FileSystemOperation false :=
  FileSystemOperation.ofPointer fs (Operation.Stat path)

/-- The factory `Stat( FileSystem &fs, Arg<std::string> path )`. -/
def StatRef (fs : FileSystemRef) (path : Arg String) : FileSystemOperation false :=
  FileSystemOperation.ofReference fs (Operation.Stat path)

/-- The factory `SetXAttr( FileSystem *fs, path, name, value )`. -/
def SetXAttr (fs : FileSystemPtr) (path name value : Arg String) : FileSystemOperation false :=
  FileSystemOperation.ofPointer fs (Operation.SetXAttr path name value)

/-- The factory `SetXAttr( FileSystem &fs, path, name, value )`. -/
def SetXAttrRef (fs : FileSystemRef) (path name value : Arg String) :
    FileSystemOperation false :=
  FileSystemOperation.ofReference fs (Operation.SetXAttr path name value)

/-- The factory `SetXAttr( FileSystem *fs, path, Arg<std::vector<xattr_t>> attrs )`. -/
def SetXAttrBulk (fs : FileSystemPtr) (path : Arg String) (attrs : Arg (List xattr_t)) :
    FileSystemOperation false :=
  FileSystemOperation.ofPointer fs (Operation.SetXAttrBulk path attrs)

/-- The factory `SetXAttr( FileSystem &fs, path, Arg<std::vector<xattr_t>> attrs )`. -/
def SetXAttrBulkRef (fs : FileSystemRef) (path : Arg String) (attrs : Arg (List xattr_t)) :
    FileSystemOperation false :=
  FileSystemOperation.ofReference fs (Operation.SetXAttrBulk path attrs)

/-- The factory `GetXAttr( FileSystem *fs, path, name )`. -/
def GetXAttr (fs : FileSystemPtr) (path name : Arg String) : FileSystemOperation false :=
  FileSystemOperation.ofPointer fs (Operation.GetXAttr path name)

/-- The factory `GetXAttr( FileSystem &fs, path, name )`. -/
def GetXAttrRef (fs : FileSystemRef) (path name : Arg String) : FileSystemOperation false :=
  FileSystemOperation.ofReference fs (Operation.GetXAttr path name)

/-- The factory `GetXAttr( FileSystem *fs, path, Arg<std::vector<std::string>> attrs )`. -/
def GetXAttrBulk (fs : FileSystemPtr) (path : Arg String) (attrs : Arg (List String)) :
    FileSystemOperation false :=
  FileSystemOperation.ofPointer fs (Operation.GetXAttrBulk path attrs)

/-- The factory `GetXAttr( FileSystem &fs, path, Arg<std::vector<std::string>> attrs )`. -/
def GetXAttrBulkRef (fs : FileSystemRef) (path : Arg String) (attrs : Arg (List String)) :
    FileSystemOperation false :=
  FileSystemOperation.ofReference fs (Operation.GetXAttrBulk path attrs)

/-- The factory `DelXAttr( FileSystem *fs, path, name )`. -/
def DelXAttr (fs : FileSystemPtr) (path name : Arg String) : FileSystemOperation false :=
  FileSystemOperation.ofPointer fs (Operation.DelXAttr path name)

/-- The factory `DelXAttr( FileSystem &fs, path, name )`. -/
def DelXAttrRef (fs : FileSystemRef) (path name : Arg String) : FileSystemOperation false :=
  FileSystemOperation.ofReference fs (Operation.DelXAttr path name)

/-- The factory `DelXAttr( FileSystem *fs, path, Arg<std::vector<std::string>> attrs )`. -/
def DelXAttrBulk (fs : FileSystemPtr) (path : Arg String) (attrs : Arg (List String)) :
    FileSystemOperation false :=
  FileSystemOperation.ofPointer fs (Operation.DelXAttrBulk path attrs)

/-- The factory `DelXAttr( FileSystem &fs, path, Arg<std::vector<std::string>> attrs )`. -/
def DelXAttrBulkRef (fs : FileSystemRef) (path : Arg String) (attrs : Arg (List String)) :
    FileSystemOperation false :=
  FileSystemOperation.ofReference fs (Operation.DelXAttrBulk path attrs)

/-- The factory `ListXAttr( FileSystem *fs, Arg<std::string> path )`. -/
def ListXAttr (fs : FileSystemPtr) (path : Arg String) : FileSystemOperation false :=
  FileSystemOperation.ofPointer fs (Operation.ListXAttr path)

/-- The factory `ListXAttr( FileSystem &fs, Arg<std::string> path )`. -/
def ListXAttrRef (fs : FileSystemRef) (path : Arg String) : FileSystemOperation false :=
  FileSystemOperation.ofReference fs (Operation.ListXAttr path)

/-- The operation kinds of the catalogue: the 23 class templates of the header. -/
inductive Kind
  | LocateImpl
  | DeepLocateImpl
  | MvImpl
  | QueryImpl
  | TruncateFsImpl
  | RmImpl
  | MkDirImpl
  | RmDirImpl
  | ChModImpl
  | PingImpl
  | StatFsImpl
  | StatVFSImpl
  | ProtocolImpl
  | DirListImpl
  | SendInfoImpl
  | PrepareImpl
  | SetXAttrFsImpl
  | SetXAttrFsBulkImpl
  | GetXAttrFsImpl
  | GetXAttrFsBulkImpl
  | DelXAttrFsImpl
  | DelXAttrFsBulkImpl
  | ListXAttrFsImpl
  deriving DecidableEq

/-- The class of an operation. -/
def Operation.kind : Operation → Kind
  | Operation.Locate _ _ => Kind.LocateImpl
  | Operation.DeepLocate _ _ => Kind.DeepLocateImpl
  | Operation.Mv _ _ => Kind.MvImpl
  | Operation.Query _ _ => Kind.QueryImpl
  | Operation.Truncate _ _ => Kind.TruncateFsImpl
  | Operation.Rm _ => Kind.RmImpl
  | Operation.MkDir _ _ _ => Kind.MkDirImpl
  | Operation.RmDir _ => Kind.RmDirImpl
  | Operation.ChMod _ _ => Kind.ChModImpl
  | Operation.Ping => Kind.PingImpl
  | Operation.Stat _ => Kind.StatFsImpl
  | Operation.StatVFS _ => Kind.StatVFSImpl
  | Operation.Protocol => Kind.ProtocolImpl
  | Operation.DirList _ _ => Kind.DirListImpl
  | Operation.SendInfo _ => Kind.SendInfoImpl
  | Operation.Prepare _ _ _ => Kind.PrepareImpl
  | Operation.SetXAttr _ _ _ => Kind.SetXAttrFsImpl
  | Operation.SetXAttrBulk _ _ => Kind.SetXAttrFsBulkImpl
  | Operation.GetXAttr _ _ => Kind.GetXAttrFsImpl
  | Operation.GetXAttrBulk _ _ => Kind.GetXAttrFsBulkImpl
  | Operation.DelXAttr _ _ => Kind.DelXAttrFsImpl
  | Operation.DelXAttrBulk _ _ => Kind.DelXAttrFsBulkImpl
  | Operation.ListXAttr _ => Kind.ListXAttrFsImpl

/-- The member `ToString()` of each class: the string literal it returns. -/
def Kind.ToString : Kind → String
  | Kind.LocateImpl => "Locate"
  | Kind.DeepLocateImpl => "DeepLocate"
  | Kind.MvImpl => "Mv"
  | Kind.QueryImpl => "Query"
  | Kind.TruncateFsImpl => "Truncate"
  | Kind.RmImpl => "Rm"
  | Kind.MkDirImpl => "MkDir"
  | Kind.RmDirImpl => "RmDir"
  | Kind.ChModImpl => "ChMod"
  | Kind.PingImpl => "Ping"
  | Kind.StatFsImpl => "Stat"
  | Kind.StatVFSImpl => "StatVFS"
  | Kind.ProtocolImpl => "Protocol"
  | Kind.DirListImpl => "DirList"
  | Kind.SendInfoImpl => "SendInfo"
  | Kind.PrepareImpl => "Prepare"
  | Kind.SetXAttrFsImpl => "SetXAttrFsImpl"
  | Kind.SetXAttrFsBulkImpl => "SetXAttrBulkImpl"
  | Kind.GetXAttrFsImpl => "GetXAttrFsImpl"
  | Kind.GetXAttrFsBulkImpl => "GetXAttrFsBulkImpl"
  | Kind.DelXAttrFsImpl => "DelXAttrFsImpl"
  | Kind.DelXAttrFsBulkImpl => "DelXAttrBulkImpl"
  | Kind.ListXAttrFsImpl => "ListXAttrFsImpl"

/-- The call `op.ToString()` on an operation object, in either state: the member
of its class, which reads neither the state nor the arguments. -/
def FileSystemOperation.ToString {b : Bool} (op : FileSystemOperation b) : String :=
  op.args.kind.ToString

/-! ## Lemmas on runs -/

theorem tryCatch_trace (body : Step XRootDStatus) : (tryCatch body).trace = body.trace := by
  unfold tryCatch
  split <;> rfl

theorem Arg.get_of_fault_none {α : Type} {a : Arg α} (h : a.fault = none) :
    ∃ v, a.Get = Except.ok v := by
  unfold Arg.fault at h
  split at h
  · exact ⟨_, by assumption⟩
  · cases h

theorem Arg.get_of_fault_some {α : Type} {a : Arg α} {t : Thrown} (h : a.fault = some t) :
    a.Get = Except.error t := by
  unfold Arg.fault at h
  split at h
  · cases h
  · rename_i u hu
    cases h
    exact hu

theorem getArg_bind_ok {α β : Type} {a : Arg α} {v : α} (i : Nat) (k : α → Step β)
    (h : a.Get = Except.ok v) :
    (getArg i a >>= k) = { trace := Event.get i :: (k v).trace, out := (k v).out } := by
  simp [getArg, bind, Step.bind, h]

theorem getArg_bind_error {α β : Type} {a : Arg α} {t : Thrown} (i : Nat) (k : α → Step β)
    (h : a.Get = Except.error t) :
    (getArg i a >>= k) = { trace := [Event.get i], out := Except.error t } := by
  simp [getArg, bind, Step.bind, h]

theorem fault1 {α : Type} (a : Arg α) (k : α → Step XRootDStatus) {i : Nat} {t : Thrown}
    (h : firstFault [a.fault] = some (i, t)) :
    tryCatch (getArg 0 a >>= k) = stoppedAt i t := by
  cases ha : a.fault with
  | none => simp [firstFault, ha] at h
  | some u =>
    simp [firstFault, ha] at h
    obtain ⟨rfl, rfl⟩ := h
    rw [getArg_bind_error 0 k (Arg.get_of_fault_some ha)]
    rfl

theorem fault2 {α β : Type} (a : Arg α) (b : Arg β) (k : α → β → Step XRootDStatus)
    {i : Nat} {t : Thrown} (h : firstFault [a.fault, b.fault] = some (i, t)) :
    tryCatch (getArg 0 a >>= fun x => getArg 1 b >>= fun y => k x y) = stoppedAt i t := by
  cases ha : a.fault with
  | some u =>
    simp [firstFault, ha] at h
    obtain ⟨rfl, rfl⟩ := h
    rw [getArg_bind_error 0 _ (Arg.get_of_fault_some ha)]
    rfl
  | none =>
    obtain ⟨x, hx⟩ := Arg.get_of_fault_none ha
    cases hb : b.fault with
    | none => simp [firstFault, ha, hb] at h
    | some u =>
      simp [firstFault, ha, hb] at h
      obtain ⟨rfl, rfl⟩ := h
      rw [getArg_bind_ok 0 _ hx, getArg_bind_error 1 _ (Arg.get_of_fault_some hb)]
      rfl

theorem fault3 {α β γ : Type} (a : Arg α) (b : Arg β) (c : Arg γ)
    (k : α → β → γ → Step XRootDStatus)
    {i : Nat} {t : Thrown} (h : firstFault [a.fault, b.fault, c.fault] = some (i, t)) :
    tryCatch (getArg 0 a >>= fun x => getArg 1 b >>= fun y => getArg 2 c >>= fun z => k x y z)
      = stoppedAt i t := by
  cases ha : a.fault with
  | some u =>
    simp [firstFault, ha] at h
    obtain ⟨rfl, rfl⟩ := h
    rw [getArg_bind_error 0 _ (Arg.get_of_fault_some ha)]
    rfl
  | none =>
    obtain ⟨x, hx⟩ := Arg.get_of_fault_none ha
    cases hb : b.fault with
    | some u =>
      simp [firstFault, ha, hb] at h
      obtain ⟨rfl, rfl⟩ := h
      rw [getArg_bind_ok 0 _ hx, getArg_bind_error 1 _ (Arg.get_of_fault_some hb)]
      rfl
    | none =>
      obtain ⟨y, hy⟩ := Arg.get_of_fault_none hb
      cases hc : c.fault with
      | none => simp [firstFault, ha, hb, hc] at h
      | some u =>
        simp [firstFault, ha, hb, hc] at h
        obtain ⟨rfl, rfl⟩ := h
        rw [getArg_bind_ok 0 _ hx, getArg_bind_ok 1 _ hy,
          getArg_bind_error 2 _ (Arg.get_of_fault_some hc)]
        rfl

theorem Operation.RunImpl_of_fault (fs : FileSystem) (h : HandlerRef) (op : Operation)
    {i : Nat} {t : Thrown} (hf : firstFault op.faults = some (i, t)) :
    op.RunImpl fs h = stoppedAt i t := by
  cases op with
  | Ping => simp [Operation.faults, firstFault] at hf
  | Protocol => simp [Operation.faults, firstFault] at hf
  | Locate p f => exact fault2 p f _ hf
  | DeepLocate p f => exact fault2 p f _ hf
  | Mv p f => exact fault2 p f _ hf
  | Query p f => exact fault2 p f _ hf
  | Truncate p f => exact fault2 p f _ hf
  | Rm p => exact fault1 p _ hf
  | MkDir p f m => exact fault3 p f m _ hf
  | RmDir p => exact fault1 p _ hf
  | ChMod p f => exact fault2 p f _ hf
  | Stat p => exact fault1 p _ hf
  | StatVFS p => exact fault1 p _ hf
  | DirList p f => exact fault2 p f _ hf
  | SendInfo p => exact fault1 p _ hf
  | Prepare p f m => exact fault3 p f m _ hf
  | SetXAttr p f m => exact fault3 p f m _ hf
  | SetXAttrBulk p f => exact fault2 p f _ hf
  | GetXAttr p f => exact fault2 p f _ hf
  | GetXAttrBulk p f => exact fault2 p f _ hf
  | DelXAttr p f => exact fault2 p f _ hf
  | DelXAttrBulk p f => exact fault2 p f _ hf
  | ListXAttr p => exact fault1 p _ hf

theorem tryCatch_out (body : Step XRootDStatus) :
    (tryCatch body).out = (tryCatch { trace := [], out := body.out }).out := by
  unfold tryCatch
  split <;> simp_all

theorem oneCall_issue (fs : FileSystem) (h : HandlerRef) (c : Call) (hc : c.handler = h) :
    OneCall fs h (issue fs c) :=
  ⟨c, rfl, Or.inl hc, rfl⟩

theorem oneCall_wrapped (fs : FileSystem) (h w : HandlerRef) (mk : HandlerRef → Call)
    (hw : servesHandler h w) (hmk : (mk w).handler = w) :
    OneCall fs h (do
      let wrapper ← newHandler w
      let st ← issue fs (mk wrapper)
      if !st.IsOK then deleteHandler wrapper
      pure st) := by
  refine ⟨mk w, ?_, by rw [hmk]; exact hw, ?_⟩
  · simp only [newHandler, issue, bind, Step.bind]
    cases hs : fs.submit (mk w) with
    | error t => simp [issued]
    | ok st => cases hok : st.IsOK <;> simp [issued, hok, deleteHandler, pure]
  · simp only [newHandler, issue, bind, Step.bind]
    cases hs : fs.submit (mk w) with
    | error t => simp
    | ok st => cases hok : st.IsOK <;> simp [hok, deleteHandler, pure]

theorem oneCall_get {α : Type} (fs : FileSystem) (h : HandlerRef) {a : Arg α} (i : Nat)
    (k : α → Step XRootDStatus) (ha : a.fault = none) (hk : ∀ x, OneCall fs h (k x)) :
    OneCall fs h (getArg i a >>= k) := by
  obtain ⟨v, hv⟩ := Arg.get_of_fault_none ha
  rw [getArg_bind_ok i k hv]
  obtain ⟨c, h1, h2, h3⟩ := hk v
  exact ⟨c, by simpa [issued] using h1, h2, h3⟩

theorem oneCall_tryCatch {fs : FileSystem} {h : HandlerRef} {s : Step XRootDStatus}
    (hs : OneCall fs h s) :
    ∃ c, issued (tryCatch s).trace = [c] ∧ servesHandler h c.handler ∧
      (tryCatch s).out = (tryCatch { trace := [], out := fs.submit c }).out := by
  obtain ⟨c, h1, h2, h3⟩ := hs
  exact ⟨c, by rw [tryCatch_trace]; exact h1, h2, by rw [tryCatch_out, h3]⟩

theorem Operation.RunImpl_of_resolved (fs : FileSystem) (h : HandlerRef) (op : Operation)
    (hres : ∀ f ∈ op.faults, f = none) :
    ∃ c, issued (op.RunImpl fs h).trace = [c] ∧ servesHandler h c.handler ∧
      (op.RunImpl fs h).out =
        if op.guarded = true then (tryCatch { trace := [], out := fs.submit c }).out
        else fs.submit c := by
  cases op with
  | Ping => exact ⟨Call.Ping h, rfl, Or.inl rfl, rfl⟩
  | Protocol => exact ⟨Call.Protocol h, rfl, Or.inl rfl, rfl⟩
  | Locate p f =>
    exact oneCall_tryCatch (oneCall_get fs h 0 _ (hres _ (by simp [Operation.faults]))
      fun _ => oneCall_get fs h 1 _ (hres _ (by simp [Operation.faults]))
      fun _ => oneCall_issue fs h _ rfl)
  | DeepLocate p f =>
    exact oneCall_tryCatch (oneCall_get fs h 0 _ (hres _ (by simp [Operation.faults]))
      fun _ => oneCall_get fs h 1 _ (hres _ (by simp [Operation.faults]))
      fun _ => oneCall_issue fs h _ rfl)
  | Mv p f =>
    exact oneCall_tryCatch (oneCall_get fs h 0 _ (hres _ (by simp [Operation.faults]))
      fun _ => oneCall_get fs h 1 _ (hres _ (by simp [Operation.faults]))
      fun _ => oneCall_issue fs h _ rfl)
  | Query p f =>
    exact oneCall_tryCatch (oneCall_get fs h 0 _ (hres _ (by simp [Operation.faults]))
      fun _ => oneCall_get fs h 1 _ (hres _ (by simp [Operation.faults]))
      fun _ => oneCall_issue fs h _ rfl)
  | Truncate p f =>
    exact oneCall_tryCatch (oneCall_get fs h 0 _ (hres _ (by simp [Operation.faults]))
      fun _ => oneCall_get fs h 1 _ (hres _ (by simp [Operation.faults]))
      fun _ => oneCall_issue fs h _ rfl)
  | Rm p =>
    exact oneCall_tryCatch (oneCall_get fs h 0 _ (hres _ (by simp [Operation.faults]))
      fun _ => oneCall_issue fs h _ rfl)
  | MkDir p f m =>
    exact oneCall_tryCatch (oneCall_get fs h 0 _ (hres _ (by simp [Operation.faults]))
      fun _ => oneCall_get fs h 1 _ (hres _ (by simp [Operation.faults]))
      fun _ => oneCall_get fs h 2 _ (hres _ (by simp [Operation.faults]))
      fun _ => oneCall_issue fs h _ rfl)
  | RmDir p =>
    exact oneCall_tryCatch (oneCall_get fs h 0 _ (hres _ (by simp [Operation.faults]))
      fun _ => oneCall_issue fs h _ rfl)
  | ChMod p f =>
    exact oneCall_tryCatch (oneCall_get fs h 0 _ (hres _ (by simp [Operation.faults]))
      fun _ => oneCall_get fs h 1 _ (hres _ (by simp [Operation.faults]))
      fun _ => oneCall_issue fs h _ rfl)
  | Stat p =>
    exact oneCall_tryCatch (oneCall_get fs h 0 _ (hres _ (by simp [Operation.faults]))
      fun _ => oneCall_issue fs h _ rfl)
  | StatVFS p =>
    exact oneCall_tryCatch (oneCall_get fs h 0 _ (hres _ (by simp [Operation.faults]))
      fun _ => oneCall_issue fs h _ rfl)
  | DirList p f =>
    exact oneCall_tryCatch (oneCall_get fs h 0 _ (hres _ (by simp [Operation.faults]))
      fun _ => oneCall_get fs h 1 _ (hres _ (by simp [Operation.faults]))
      fun _ => oneCall_issue fs h _ rfl)
  | SendInfo p =>
    exact oneCall_tryCatch (oneCall_get fs h 0 _ (hres _ (by simp [Operation.faults]))
      fun _ => oneCall_issue fs h _ rfl)
  | Prepare p f m =>
    exact oneCall_tryCatch (oneCall_get fs h 0 _ (hres _ (by simp [Operation.faults]))
      fun _ => oneCall_get fs h 1 _ (hres _ (by simp [Operation.faults]))
      fun _ => oneCall_get fs h 2 _ (hres _ (by simp [Operation.faults]))
      fun _ => oneCall_issue fs h _ rfl)
  | SetXAttr p f m =>
    exact oneCall_tryCatch (oneCall_get fs h 0 _ (hres _ (by simp [Operation.faults]))
      fun x => oneCall_get fs h 1 _ (hres _ (by simp [Operation.faults]))
      fun y => oneCall_get fs h 2 _ (hres _ (by simp [Operation.faults]))
      fun z => oneCall_wrapped fs h (HandlerRef.UnpackXAttrStatus h)
        (fun g => Call.SetXAttr x ([] ++ [(y, z)]) g) (Or.inr (Or.inl rfl)) rfl)
  | SetXAttrBulk p f =>
    exact oneCall_tryCatch (oneCall_get fs h 0 _ (hres _ (by simp [Operation.faults]))
      fun _ => oneCall_get fs h 1 _ (hres _ (by simp [Operation.faults]))
      fun _ => oneCall_issue fs h _ rfl)
  | GetXAttr p f =>
    exact oneCall_tryCatch (oneCall_get fs h 0 _ (hres _ (by simp [Operation.faults]))
      fun x => oneCall_get fs h 1 _ (hres _ (by simp [Operation.faults]))
      fun y => oneCall_wrapped fs h (HandlerRef.UnpackXAttr h)
        (fun g => Call.GetXAttr x ([] ++ [y]) g) (Or.inr (Or.inr rfl)) rfl)
  | GetXAttrBulk p f =>
    exact oneCall_tryCatch (oneCall_get fs h 0 _ (hres _ (by simp [Operation.faults]))
      fun _ => oneCall_get fs h 1 _ (hres _ (by simp [Operation.faults]))
      fun _ => oneCall_issue fs h _ rfl)
  | DelXAttr p f =>
    exact oneCall_tryCatch (oneCall_get fs h 0 _ (hres _ (by simp [Operation.faults]))
      fun x => oneCall_get fs h 1 _ (hres _ (by simp [Operation.faults]))
      fun y => oneCall_wrapped fs h (HandlerRef.UnpackXAttrStatus h)
        (fun g => Call.DelXAttr x ([] ++ [y]) g) (Or.inr (Or.inl rfl)) rfl)
  | DelXAttrBulk p f =>
    exact oneCall_tryCatch (oneCall_get fs h 0 _ (hres _ (by simp [Operation.faults]))
      fun _ => oneCall_get fs h 1 _ (hres _ (by simp [Operation.faults]))
      fun _ => oneCall_issue fs h _ rfl)
  | ListXAttr p =>
    exact oneCall_tryCatch (oneCall_get fs h 0 _ (hres _ (by simp [Operation.faults]))
      fun _ => oneCall_issue fs h _ rfl)

theorem firstFault_of_failsFirstAt {l : List (Option Thrown)} {i : Nat} {t : Thrown}
    (h : FailsFirstAt l i t) : firstFault l = some (i, t) := by
  induction l generalizing i with
  | nil => simp [FailsFirstAt] at h
  | cons f rest ih =>
    cases i with
    | zero =>
      obtain ⟨_, h0⟩ := h
      simp at h0
      subst h0
      rfl
    | succ n =>
      obtain ⟨hlt, hn⟩ := h
      have h0 := hlt 0 (Nat.succ_pos n)
      simp at h0
      subst h0
      have hrest : FailsFirstAt rest n t := by
        refine ⟨fun j hj => ?_, by simpa using hn⟩
        have := hlt (j + 1) (Nat.succ_lt_succ hj)
        simpa using this
      simp [firstFault, ih hrest]

theorem firstFault_of_mem {l : List (Option Thrown)} {t : Thrown} (h : some t ∈ l) :
    ∃ i u, firstFault l = some (i, u) := by
  induction l with
  | nil => simp at h
  | cons f rest ih =>
    cases f with
    | some u => exact ⟨0, u, rfl⟩
    | none =>
      have hmem : some t ∈ rest := by simpa using h
      obtain ⟨i, u, hiu⟩ := ih hmem
      exact ⟨i + 1, u, by simp [firstFault, hiu]⟩

theorem mem_of_firstFault {l : List (Option Thrown)} {i : Nat} {t : Thrown}
    (h : firstFault l = some (i, t)) : some t ∈ l := by
  induction l generalizing i with
  | nil => simp [firstFault] at h
  | cons f rest ih =>
    cases f with
    | some u =>
      simp [firstFault] at h
      simp [h.2]
    | none =>
      cases hr : firstFault rest with
      | none => simp [firstFault, hr] at h
      | some p =>
        simp [firstFault, hr] at h
        have hp : firstFault rest = some (p.1, t) := by rw [hr, ← h.2]
        exact List.mem_cons_of_mem _ (ih hp)

theorem resolved_of_firstFault_none {l : List (Option Thrown)} (h : firstFault l = none) :
    ∀ f ∈ l, f = none := by
  induction l with
  | nil => simp
  | cons g rest ih =>
    cases g with
    | some u => simp [firstFault] at h
    | none =>
      have hr : firstFault rest = none := by
        cases hr : firstFault rest with
        | none => rfl
        | some p => simp [firstFault, hr] at h
      intro f hf
      rcases List.mem_cons.mp hf with rfl | hf
      · rfl
      · exact ih hr f hf

theorem issued_map_get (l : List Nat) : issued (l.map Event.get) = [] := by
  induction l with
  | nil => rfl
  | cons i rest ih => simpa [issued] using ih

theorem stoppedAt_trace (i : Nat) (t : Thrown) :
    (stoppedAt i t).trace = (List.range (i + 1)).map Event.get := by
  unfold stoppedAt
  rw [tryCatch_trace]

theorem stoppedAt_out (i : Nat) (t : Thrown) :
    (stoppedAt i t).out = (tryCatch { trace := [], out := Except.error t }).out := by
  unfold stoppedAt
  rw [tryCatch_out]

/-! ## The claims -/

/-- C1 (does not hold of the code): for the path `/a/file` and the stub file system
that answers a stat request with `(ok, StatInfo{size:42})`, running Stat issues a
directory-removal request for the path and no stat request, and the handler
receives `ok` with no response instead of the `StatInfo` of size 42. -/
theorem stat_issues_rmdir_request :
    issued (StatFsImpl.RunImpl statStub (HandlerRef.pipeline 0) (Arg.bound "/a/file")).trace
        = [Call.RmDir "/a/file" (HandlerRef.pipeline 0)]
      ∧ (Operation.Stat (Arg.bound "/a/file")).Run statStub 0
        = [{ handler := HandlerRef.pipeline 0, status := XRootDStatus.OK, response := none }]
      ∧ statStub.answer (Call.Stat "/a/file" (HandlerRef.pipeline 0))
        = (XRootDStatus.OK, some (Response.StatInfo 42)) := by
  refine ⟨rfl, ?_, rfl⟩
  rfl

/-- C2: for every operation and every state in which `Get()` of at least one of its
arguments fails (so the operation is not Ping or Protocol), `RunImpl` hands no
request at all to the file system. -/
theorem no_request_when_an_argument_fails (fs : FileSystem) (h : HandlerRef) (op : Operation)
    (t : Thrown) (hf : some t ∈ op.faults) :
    issued (op.RunImpl fs h).trace = [] := by
  obtain ⟨i, u, hiu⟩ := firstFault_of_mem hf
  rw [Operation.RunImpl_of_fault fs h op hiu, stoppedAt_trace]
  exact issued_map_get _

theorem no_request_when_an_argument_fails_witness :
    some (Thrown.PipelineException forwardingError)
        ∈ (Operation.MkDir (Arg.bound "/dir") (Arg.forwarded none) (Arg.bound 7)).faults
      ∧ issued ((Operation.MkDir (Arg.bound "/dir") (Arg.forwarded none) (Arg.bound 7)).RunImpl
          statStub (HandlerRef.pipeline 0)).trace = [] :=
  ⟨by simp [Operation.faults, Arg.fault, Arg.Get],
   no_request_when_an_argument_fails statStub (HandlerRef.pipeline 0) _
     (Thrown.PipelineException forwardingError) (by simp [Operation.faults, Arg.fault, Arg.Get])⟩

/-- C3: for every operation with arguments, when `Get()` of an argument fails with
a pipeline error `e` (it is the first cell that fails), `RunImpl` returns exactly
`e`: the same origin, code and message. -/
theorem pipeline_error_returned_unchanged (fs : FileSystem) (h : HandlerRef) (op : Operation)
    (i : Nat) (e : XRootDStatus)
    (hf : FailsFirstAt op.faults i (Thrown.PipelineException e)) :
    (op.RunImpl fs h).out = Except.ok e := by
  rw [Operation.RunImpl_of_fault fs h op (firstFault_of_failsFirstAt hf), stoppedAt_out]
  rfl

theorem pipeline_error_returned_unchanged_witness :
    FailsFirstAt (Operation.DirList (Arg.forwarded none) (Arg.bound 1)).faults 0
        (Thrown.PipelineException forwardingError)
      ∧ ((Operation.DirList (Arg.forwarded none) (Arg.bound 1)).RunImpl statStub
          (HandlerRef.pipeline 0)).out = Except.ok forwardingError
      ∧ forwardingError.origin = Origin.Forwarding :=
  ⟨by simp [FailsFirstAt, Operation.faults, Arg.fault, Arg.Get],
   pipeline_error_returned_unchanged statStub (HandlerRef.pipeline 0) _ 0 forwardingError
     (by simp [FailsFirstAt, Operation.faults, Arg.fault, Arg.Get]),
   rfl⟩

/-- C4: for every operation of the catalogue, when every argument resolves,
`RunImpl` hands exactly one request to the file system, and what it returns is
exactly the immediate status that this request returned, an acceptance or a
synchronous rejection alike. -/
theorem one_request_and_its_status (fs : FileSystem) (h : HandlerRef) (op : Operation)
    (hres : ∀ f ∈ op.faults, f = none) :
    ∃ c, issued (op.RunImpl fs h).trace = [c] ∧
      ∀ st, fs.submit c = Except.ok st → (op.RunImpl fs h).out = Except.ok st := by
  obtain ⟨c, h1, _, h3⟩ := Operation.RunImpl_of_resolved fs h op hres
  refine ⟨c, h1, fun st hst => ?_⟩
  rw [h3, hst]
  cases op.guarded <;> rfl

theorem one_request_and_its_status_witness :
    (∀ f ∈ (Operation.GetXAttr (Arg.bound "/f") (Arg.bound "user.a")).faults, f = none)
      ∧ ∃ c, issued ((Operation.GetXAttr (Arg.bound "/f") (Arg.bound "user.a")).RunImpl
            (rejectingStub forwardingError) (HandlerRef.pipeline 0)).trace = [c] ∧
          ∀ st, (rejectingStub forwardingError).submit c = Except.ok st →
            ((Operation.GetXAttr (Arg.bound "/f") (Arg.bound "user.a")).RunImpl
              (rejectingStub forwardingError) (HandlerRef.pipeline 0)).out = Except.ok st :=
  ⟨by simp [Operation.faults, Arg.fault, Arg.Get],
   one_request_and_its_status (rejectingStub forwardingError) (HandlerRef.pipeline 0) _
     (by simp [Operation.faults, Arg.fault, Arg.Get])⟩

/-- C5 (does not hold as stated): in MkDir the first argument that fails, the
flags at index 1, raises an object that is not a standard exception; `RunImpl`
then returns nothing, so it does not return the error of that argument: the
object leaves the function. -/
theorem foreign_fault_of_argument_not_returned :
    FailsFirstAt (Operation.MkDir (Arg.bound "/d") (Arg.raising (Thrown.foreign 7))
        (Arg.bound 493)).faults 1 (Thrown.foreign 7)
      ∧ ¬ ∃ st, ((Operation.MkDir (Arg.bound "/d") (Arg.raising (Thrown.foreign 7))
          (Arg.bound 493)).RunImpl statStub (HandlerRef.pipeline 0)).out = Except.ok st := by
  constructor
  · refine ⟨fun j hj => ?_, by simp [Operation.faults, Arg.fault, Arg.Get]⟩
    have hj0 : j = 0 := by omega
    subst hj0
    simp [Operation.faults, Arg.fault, Arg.Get]
  · rintro ⟨st, hst⟩
    have hout : ((Operation.MkDir (Arg.bound "/d") (Arg.raising (Thrown.foreign 7))
        (Arg.bound 493)).RunImpl statStub (HandlerRef.pipeline 0)).out
          = Except.error (Thrown.foreign 7) := rfl
    rw [hout] at hst
    cases hst

/-- C5 (amended): arguments are read in their declared order and reading stops at
the first failure.  If argument `i` is the first one whose `Get()` fails, the
cells read are exactly `0, 1, ..., i` in this order, so no cell declared after
`i` is read and no request is issued; when the failure is a standard exception
`RunImpl` returns the error of argument `i` (the status carried by a pipeline
error, the status built from its text for another standard exception), and
when it is an object that is not a standard exception `RunImpl` returns
nothing: the object leaves the function. -/
theorem arguments_read_in_order_until_first_failure (fs : FileSystem) (h : HandlerRef)
    (op : Operation) (i : Nat) (t : Thrown) (hf : FailsFirstAt op.faults i t) :
    (op.RunImpl fs h).trace = (List.range (i + 1)).map Event.get
      ∧ (∀ e, t = Thrown.PipelineException e → (op.RunImpl fs h).out = Except.ok e)
      ∧ (∀ m, t = Thrown.stdException m →
          (op.RunImpl fs h).out = Except.ok (XRootDStatus.stError m))
      ∧ (∀ n, t = Thrown.foreign n →
          (op.RunImpl fs h).out = Except.error (Thrown.foreign n)) := by
  rw [Operation.RunImpl_of_fault fs h op (firstFault_of_failsFirstAt hf), stoppedAt_trace,
    stoppedAt_out]
  refine ⟨rfl, ?_, ?_, ?_⟩
  · rintro e rfl
    rfl
  · rintro m rfl
    rfl
  · rintro n rfl
    rfl

theorem arguments_read_in_order_until_first_failure_witness :
    FailsFirstAt (Operation.Prepare (Arg.bound ["/a", "/b"]) (Arg.forwarded none)
        (Arg.raising (Thrown.stdException "late"))).faults 1
        (Thrown.PipelineException forwardingError)
      ∧ ((Operation.Prepare (Arg.bound ["/a", "/b"]) (Arg.forwarded none)
          (Arg.raising (Thrown.stdException "late"))).RunImpl statStub
          (HandlerRef.pipeline 0)).trace = [Event.get 0, Event.get 1]
      ∧ ((Operation.Prepare (Arg.bound ["/a", "/b"]) (Arg.forwarded none)
          (Arg.raising (Thrown.stdException "late"))).RunImpl statStub
          (HandlerRef.pipeline 0)).out = Except.ok forwardingError :=
  have hw := arguments_read_in_order_until_first_failure statStub (HandlerRef.pipeline 0)
    (Operation.Prepare (Arg.bound ["/a", "/b"]) (Arg.forwarded none)
      (Arg.raising (Thrown.stdException "late"))) 1 (Thrown.PipelineException forwardingError)
    (by
      refine ⟨fun j hj => ?_, by simp [Operation.faults, Arg.fault, Arg.Get]⟩
      have hj0 : j = 0 := by omega
      subst hj0
      simp [Operation.faults, Arg.fault, Arg.Get])
  ⟨by
      refine ⟨fun j hj => ?_, by simp [Operation.faults, Arg.fault, Arg.Get]⟩
      have hj0 : j = 0 := by omega
      subst hj0
      simp [Operation.faults, Arg.fault, Arg.Get],
    hw.1, hw.2.1 _ rfl⟩

/-- C10: for all strings `s` and `d`, running Mv with its source bound to `s` and
its destination bound to `d` reads the two cells and issues the move request of
the file system with `s` as the source and `d` as the destination, passing the
handler of the operation. -/
theorem mv_issues_move_source_dest (fs : FileSystem) (h : HandlerRef) (s d : String) :
    (MvImpl.RunImpl fs h (Arg.bound s) (Arg.bound d)).trace
      = [Event.get 0, Event.get 1, Event.issue (Call.Mv s d h)] := by
  rw [MvImpl.RunImpl, tryCatch_trace]
  rfl

/-- C6 (does not hold as stated): a pipeline error raised while an argument is
evaluated is returned with the origin it carries, here `Forwarding`, not as a
`Local` status; and a thrown object that is not a standard exception is not
caught, it leaves `RunImpl`. -/
theorem argument_fault_not_always_local :
    (¬ ∃ st, (LocateImpl.RunImpl statStub (HandlerRef.pipeline 0) (Arg.forwarded none)
          (Arg.bound 0)).out = Except.ok st ∧ st.origin = Origin.Local)
      ∧ (¬ ∃ st, (LocateImpl.RunImpl statStub (HandlerRef.pipeline 0)
          (Arg.raising (Thrown.foreign 7)) (Arg.bound 0)).out = Except.ok st) := by
  constructor
  · rintro ⟨st, hst, horigin⟩
    have h : (LocateImpl.RunImpl statStub (HandlerRef.pipeline 0) (Arg.forwarded none)
        (Arg.bound 0)).out = Except.ok forwardingError := rfl
    rw [h] at hst
    cases hst
    cases horigin
  · rintro ⟨st, hst⟩
    have h : (LocateImpl.RunImpl statStub (HandlerRef.pipeline 0)
        (Arg.raising (Thrown.foreign 7)) (Arg.bound 0)).out
          = Except.error (Thrown.foreign 7) := rfl
    rw [h] at hst
    cases hst

/-- C6 (amended): for every operation with arguments, when the first argument that
fails raises `t`, no request is issued; a standard exception that is not a
pipeline error, with text `m`, does not propagate: `RunImpl` returns an error
status of `Local` origin with message `m`; a pipeline error does not propagate
either and is returned as the status it carries; a thrown object that is not a
standard exception leaves `RunImpl`. -/
theorem argument_fault_containment (fs : FileSystem) (h : HandlerRef) (op : Operation)
    (i : Nat) (t : Thrown) (hf : FailsFirstAt op.faults i t) :
    issued (op.RunImpl fs h).trace = []
      ∧ (∀ m, t = Thrown.stdException m →
          ∃ st, (op.RunImpl fs h).out = Except.ok st ∧ st.origin = Origin.Local
            ∧ st.IsOK = false ∧ st.message = m)
      ∧ (∀ e, t = Thrown.PipelineException e → (op.RunImpl fs h).out = Except.ok e)
      ∧ (∀ n, t = Thrown.foreign n →
          (op.RunImpl fs h).out = Except.error (Thrown.foreign n)) := by
  rw [Operation.RunImpl_of_fault fs h op (firstFault_of_failsFirstAt hf), stoppedAt_trace,
    stoppedAt_out]
  refine ⟨issued_map_get _, ?_, ?_, ?_⟩
  · rintro m rfl
    exact ⟨XRootDStatus.stError m, rfl, rfl, rfl, rfl⟩
  · rintro e rfl
    rfl
  · rintro n rfl
    rfl

theorem argument_fault_containment_witness :
    FailsFirstAt (Operation.DelXAttr (Arg.raising (Thrown.stdException "bad cell"))
        (Arg.bound "user.a")).faults 0 (Thrown.stdException "bad cell")
      ∧ issued ((Operation.DelXAttr (Arg.raising (Thrown.stdException "bad cell"))
          (Arg.bound "user.a")).RunImpl statStub (HandlerRef.pipeline 0)).trace = []
      ∧ ∃ st, ((Operation.DelXAttr (Arg.raising (Thrown.stdException "bad cell"))
          (Arg.bound "user.a")).RunImpl statStub (HandlerRef.pipeline 0)).out = Except.ok st
          ∧ st.origin = Origin.Local ∧ st.IsOK = false ∧ st.message = "bad cell" :=
  have hf : FailsFirstAt (Operation.DelXAttr (Arg.raising (Thrown.stdException "bad cell"))
      (Arg.bound "user.a")).faults 0 (Thrown.stdException "bad cell") := by
    simp [FailsFirstAt, Operation.faults, Arg.fault, Arg.Get]
  have hw := argument_fault_containment statStub (HandlerRef.pipeline 0) _ 0
    (Thrown.stdException "bad cell") hf
  ⟨hf, hw.1, hw.2.1 _ rfl⟩

/-- C7 (does not hold as stated): Ping has no try block, so a standard exception
raised by the call on the file system leaves `RunImpl`; nothing is returned. -/
theorem ping_lets_endpoint_fault_escape :
    ¬ ∃ st, (PingImpl.RunImpl (faultyStub (Thrown.stdException "marshalling failed"))
        (HandlerRef.pipeline 0)).out = Except.ok st := by
  rintro ⟨st, hst⟩
  have h : (PingImpl.RunImpl (faultyStub (Thrown.stdException "marshalling failed"))
      (HandlerRef.pipeline 0)).out
        = Except.error (Thrown.stdException "marshalling failed") := rfl
  rw [h] at hst
  cases hst

/-- C7 (amended): when every argument resolves, exactly one call is made on the
file system; for an operation with arguments (a class with a try block) a
standard exception raised by that call does not leave `RunImpl`: it is returned
as an error status, of `Local` origin with the text of the exception, or the
carried status for a pipeline error.  For Ping and Protocol, which have no try
block, a fault raised by the call leaves `RunImpl`, and so does, for every
operation, a thrown object that is not a standard exception. -/
theorem endpoint_fault_containment (fs : FileSystem) (h : HandlerRef) (op : Operation)
    (hres : ∀ f ∈ op.faults, f = none) :
    ∃ c, issued (op.RunImpl fs h).trace = [c]
      ∧ (op.guarded = true → ∀ m, fs.submit c = Except.error (Thrown.stdException m) →
          ∃ st, (op.RunImpl fs h).out = Except.ok st ∧ st.origin = Origin.Local
            ∧ st.IsOK = false ∧ st.message = m)
      ∧ (op.guarded = true → ∀ e, fs.submit c = Except.error (Thrown.PipelineException e) →
          (op.RunImpl fs h).out = Except.ok e)
      ∧ (op.guarded = false → ∀ t, fs.submit c = Except.error t →
          (op.RunImpl fs h).out = Except.error t)
      ∧ (∀ n, fs.submit c = Except.error (Thrown.foreign n) →
          (op.RunImpl fs h).out = Except.error (Thrown.foreign n)) := by
  obtain ⟨c, h1, _, h3⟩ := Operation.RunImpl_of_resolved fs h op hres
  refine ⟨c, h1, ?_, ?_, ?_, ?_⟩
  · intro hg m hm
    rw [h3, hm, if_pos hg]
    exact ⟨XRootDStatus.stError m, rfl, rfl, rfl, rfl⟩
  · intro hg e he
    rw [h3, he, if_pos hg]
    rfl
  · intro hg t ht
    rw [h3, ht, hg]
    rfl
  · intro n hn
    rw [h3, hn]
    cases op.guarded <;> rfl

theorem endpoint_fault_containment_witness :
    (∀ f ∈ (Operation.Locate (Arg.bound "/f") (Arg.bound 0)).faults, f = none)
      ∧ ∃ c, issued ((Operation.Locate (Arg.bound "/f") (Arg.bound 0)).RunImpl
          (faultyStub (Thrown.stdException "marshalling failed"))
          (HandlerRef.pipeline 0)).trace = [c]
        ∧ ∃ st, ((Operation.Locate (Arg.bound "/f") (Arg.bound 0)).RunImpl
            (faultyStub (Thrown.stdException "marshalling failed"))
            (HandlerRef.pipeline 0)).out = Except.ok st
          ∧ st.origin = Origin.Local ∧ st.IsOK = false
          ∧ st.message = "marshalling failed" :=
  have hres : ∀ f ∈ (Operation.Locate (Arg.bound "/f") (Arg.bound 0)).faults, f = none := by
    simp [Operation.faults, Arg.fault, Arg.Get]
  ⟨hres,
    (endpoint_fault_containment (faultyStub (Thrown.stdException "marshalling failed"))
      (HandlerRef.pipeline 0) (Operation.Locate (Arg.bound "/f") (Arg.bound 0)) hres).elim
      fun c hc => ⟨c, hc.1, hc.2.1 rfl "marshalling failed" rfl⟩⟩

theorem handleResponse_of_serves {id : Nat} {g : HandlerRef}
    (hg : servesHandler (HandlerRef.pipeline id) g) (st : XRootDStatus) (r : Option Response) :
    ∃ st2 r2, g.HandleResponse st r
      = [{ handler := HandlerRef.pipeline id, status := st2, response := r2 }] := by
  rcases hg with rfl | rfl | rfl
  · exact ⟨st, r, rfl⟩
  · unfold HandlerRef.HandleResponse
    split
    · exact ⟨_, _, rfl⟩
    · exact ⟨_, _, rfl⟩
  · unfold HandlerRef.HandleResponse
    split
    · exact ⟨_, _, rfl⟩
    · exact ⟨_, _, rfl⟩

theorem Operation.run_delivers_once (fs : FileSystem) (id : Nat) (op : Operation)
    (hargs : ∀ e, some (Thrown.PipelineException e) ∈ op.faults → e.IsOK = false)
    (hfs : ∀ c e, fs.submit c = Except.error (Thrown.PipelineException e) → e.IsOK = false) :
    (∃ st r, op.Run fs id
        = [{ handler := HandlerRef.pipeline id, status := st, response := r }])
      ∧ (issued (op.RunImpl fs (HandlerRef.pipeline id)).trace).length ≤ 1 := by
  cases hff : firstFault op.faults with
  | some p =>
    obtain ⟨i, t⟩ := p
    have hrun := Operation.RunImpl_of_fault fs (HandlerRef.pipeline id) op hff
    have htr : issued (op.RunImpl fs (HandlerRef.pipeline id)).trace = [] := by
      rw [hrun, stoppedAt_trace]
      exact issued_map_get _
    have hout : (op.RunImpl fs (HandlerRef.pipeline id)).out
        = (tryCatch { trace := [], out := Except.error t }).out := by
      rw [hrun, stoppedAt_out]
    refine ⟨?_, by simp [htr]⟩
    unfold Operation.Run
    simp only [htr, hout, FileSystem.completions, List.append_nil]
    cases t with
    | PipelineException e =>
      have he := hargs e (mem_of_firstFault hff)
      exact ⟨e, none, by simp [tryCatch, he]⟩
    | stdException m => exact ⟨XRootDStatus.stError m, none, rfl⟩
    | foreign n => exact ⟨XRootDStatus.stError "", none, rfl⟩
  | none =>
    obtain ⟨c, h1, h2, h3⟩ := Operation.RunImpl_of_resolved fs (HandlerRef.pipeline id) op
      (resolved_of_firstFault_none hff)
    refine ⟨?_, by simp [h1]⟩
    unfold Operation.Run
    simp only [h1, h3, FileSystem.completions, List.append_nil]
    cases hs : fs.submit c with
    | ok st =>
      have hout : (if op.guarded = true
          then (tryCatch { trace := [], out := (Except.ok st : Except Thrown XRootDStatus) }).out
          else Except.ok st) = Except.ok st := by
        cases op.guarded <;> rfl
      rw [hout]
      cases hok : st.IsOK with
      | true =>
        obtain ⟨st2, r2, h4⟩ := handleResponse_of_serves h2 (fs.answer c).1 (fs.answer c).2
        exact ⟨st2, r2, by simp [hok, h4]⟩
      | false => exact ⟨st, none, by simp [hok]⟩
    | error t =>
      cases hg : op.guarded with
      | false => exact ⟨t.status, none, by simp⟩
      | true =>
        cases t with
        | PipelineException e =>
          have he := hfs c e hs
          exact ⟨e, none, by simp [tryCatch, he]⟩
        | stdException m =>
          exact ⟨XRootDStatus.stError m, none,
            by simp [tryCatch, XRootDStatus.stError, XRootDStatus.IsOK]⟩
        | foreign n =>
          exact ⟨XRootDStatus.stError "", none, by simp [tryCatch, Thrown.status]⟩

theorem Operation.completions_of_local_failure (fs : FileSystem) (h : HandlerRef)
    (op : Operation)
    (hno : ∀ st, (op.RunImpl fs h).out = Except.ok st → st.IsOK = false) :
    fs.completions (issued (op.RunImpl fs h).trace) = [] := by
  cases hff : firstFault op.faults with
  | some p =>
    obtain ⟨i, t⟩ := p
    rw [Operation.RunImpl_of_fault fs h op hff, stoppedAt_trace, issued_map_get]
    rfl
  | none =>
    obtain ⟨c, h1, _, h3⟩ := Operation.RunImpl_of_resolved fs h op
      (resolved_of_firstFault_none hff)
    rw [h1]
    simp only [FileSystem.completions, List.append_nil]
    cases hs : fs.submit c with
    | error t => rfl
    | ok st =>
      have hout : (op.RunImpl fs h).out = Except.ok st := by
        rw [h3, hs]
        cases op.guarded <;> rfl
      simp [hno st hout]

/-- C9 (does not hold as stated): the handler is not invoked at all when a
pipeline error carries an OK status: Locate whose path cell raises such an error,
and Rm on an endpoint whose call raises one, return OK without a request having
been accepted, so neither `Run` nor the endpoint invokes the handler. -/
theorem handler_not_invoked_on_ok_pipeline_error :
    (Operation.Locate (Arg.raising (Thrown.PipelineException XRootDStatus.OK))
        (Arg.bound 0)).Run statStub 0 = []
      ∧ (Operation.Rm (Arg.bound "/f")).Run
          (faultyStub (Thrown.PipelineException XRootDStatus.OK)) 0 = [] :=
  ⟨rfl, rfl⟩

/-- C9 (amended): for an operation of the catalogue that is run, with the handler
`id`: the run hands at most one request, hence the handler at most once, to the
endpoint; when the run fails locally, that is `RunImpl` returns a status that is
not OK (an argument that does not resolve, a forwarding failure, a synchronous
rejection by the endpoint) or a fault leaves it, the handler is invoked exactly
once, by `Run`, with that status; and when every pipeline error raised by an
argument or by the call on the endpoint carries an error status, the handler is
invoked exactly once in every run, by the endpoint when the request was
accepted. -/
theorem handler_invoked_exactly_once (fs : FileSystem) (id : Nat) (op : Operation) :
    (issued (op.RunImpl fs (HandlerRef.pipeline id)).trace).length ≤ 1
      ∧ (∀ st, (op.RunImpl fs (HandlerRef.pipeline id)).out = Except.ok st →
          st.IsOK = false →
          op.Run fs id = [{ handler := HandlerRef.pipeline id, status := st, response := none }])
      ∧ (∀ t, (op.RunImpl fs (HandlerRef.pipeline id)).out = Except.error t →
          op.Run fs id
            = [{ handler := HandlerRef.pipeline id, status := t.status, response := none }])
      ∧ ((∀ e, some (Thrown.PipelineException e) ∈ op.faults → e.IsOK = false) →
          (∀ c e, fs.submit c = Except.error (Thrown.PipelineException e) → e.IsOK = false) →
          ∃ st r, op.Run fs id
            = [{ handler := HandlerRef.pipeline id, status := st, response := r }]) := by
  refine ⟨?_, ?_, ?_, ?_⟩
  · cases hff : firstFault op.faults with
    | some p =>
      obtain ⟨i, t⟩ := p
      rw [Operation.RunImpl_of_fault fs (HandlerRef.pipeline id) op hff, stoppedAt_trace,
        issued_map_get]
      simp
    | none =>
      obtain ⟨c, h1, _, _⟩ := Operation.RunImpl_of_resolved fs (HandlerRef.pipeline id) op
        (resolved_of_firstFault_none hff)
      simp [h1]
  · intro st hst hok
    have hno : ∀ st2, (op.RunImpl fs (HandlerRef.pipeline id)).out = Except.ok st2 →
        st2.IsOK = false := by
      intro st2 hst2
      rw [hst] at hst2
      cases hst2
      exact hok
    unfold Operation.Run
    simp only [Operation.completions_of_local_failure fs (HandlerRef.pipeline id) op hno,
      List.append_nil, hst]
    simp [hok]
  · intro t ht
    have hno : ∀ st2, (op.RunImpl fs (HandlerRef.pipeline id)).out = Except.ok st2 →
        st2.IsOK = false := by
      intro st2 hst2
      rw [ht] at hst2
      cases hst2
    unfold Operation.Run
    simp only [Operation.completions_of_local_failure fs (HandlerRef.pipeline id) op hno,
      List.append_nil, ht]
  · intro hargs hfs
    exact (Operation.run_delivers_once fs id op hargs hfs).1

theorem handler_invoked_exactly_once_witness :
    (∀ e, some (Thrown.PipelineException e)
        ∈ (Operation.SetXAttr (Arg.bound "/f") (Arg.forwarded none) (Arg.bound "v")).faults →
        e.IsOK = false)
      ∧ (∀ c e, statStub.submit c = Except.error (Thrown.PipelineException e) →
          e.IsOK = false)
      ∧ (∃ st r, (Operation.SetXAttr (Arg.bound "/f") (Arg.forwarded none) (Arg.bound "v")).Run
          statStub 3 = [{ handler := HandlerRef.pipeline 3, status := st, response := r }])
      ∧ (Operation.SetXAttr (Arg.bound "/f") (Arg.forwarded none) (Arg.bound "v")).Run
          statStub 3
          = [{ handler := HandlerRef.pipeline 3, status := forwardingError, response := none }]
      ∧ (issued ((Operation.SetXAttr (Arg.bound "/f") (Arg.forwarded none)
          (Arg.bound "v")).RunImpl statStub (HandlerRef.pipeline 3)).trace).length ≤ 1 :=
  have hargs : ∀ e, some (Thrown.PipelineException e)
      ∈ (Operation.SetXAttr (Arg.bound "/f") (Arg.forwarded none) (Arg.bound "v")).faults →
      e.IsOK = false := by
    intro e he
    simp [Operation.faults, Arg.fault, Arg.Get] at he
    subst he
    rfl
  have hfs : ∀ c e, statStub.submit c = Except.error (Thrown.PipelineException e) →
      e.IsOK = false := by
    intro c e hce
    cases hce
  have hw := handler_invoked_exactly_once statStub 3
    (Operation.SetXAttr (Arg.bound "/f") (Arg.forwarded none) (Arg.bound "v"))
  ⟨hargs, hfs, hw.2.2.2 hargs hfs, hw.2.1 forwardingError rfl rfl, hw.1⟩

/-- C8: in the pipeline [DeepLocate(path), DirList(forwarded value, flags)], if the
endpoint accepts the deep-locate request and its remote call fails with a
status of origin `Protocol` and code 3011, the only events of the run are the
two reads and the request of DeepLocate (stage 0): no argument of DirList is
evaluated and no request is issued for it (no event of stage 1), and the
terminal handler receives that status, of origin `Protocol` and code 3011. -/
theorem dirList_not_run_after_deepLocate_failure (fs : FileSystem) (path : String)
    (flags dflags : Nat) (fwd : Response → Option String) (st e : XRootDStatus)
    (r : Option Response)
    (hsub : fs.submit (Call.DeepLocate path flags (HandlerRef.pipeline 0)) = Except.ok st)
    (hacc : st.IsOK = true)
    (hans : fs.answer (Call.DeepLocate path flags (HandlerRef.pipeline 0)) = (e, r))
    (horigin : e.origin = Origin.Protocol) (hcode : e.code = 3011) :
    (Pipeline.Run fs
        [fun _ => Operation.DeepLocate (Arg.bound path) (Arg.bound flags),
         fun slot => Operation.DirList (Arg.forwarded (slot.bind fwd)) (Arg.bound dflags)]
        0 none).trace
        = [(0, Event.get 0), (0, Event.get 1),
           (0, Event.issue (Call.DeepLocate path flags (HandlerRef.pipeline 0)))]
      ∧ (∀ ev, (1, ev) ∉ (Pipeline.Run fs
        [fun _ => Operation.DeepLocate (Arg.bound path) (Arg.bound flags),
         fun slot => Operation.DirList (Arg.forwarded (slot.bind fwd)) (Arg.bound dflags)]
        0 none).trace)
      ∧ ∃ d, (Pipeline.Run fs
        [fun _ => Operation.DeepLocate (Arg.bound path) (Arg.bound flags),
         fun slot => Operation.DirList (Arg.forwarded (slot.bind fwd)) (Arg.bound dflags)]
        0 none).terminal = [d] ∧ d.1.origin = Origin.Protocol ∧ d.1.code = 3011 := by
  have hrun : (Operation.DeepLocate (Arg.bound path) (Arg.bound flags)).RunImpl fs
      (HandlerRef.pipeline 0)
        = { trace := [Event.get 0, Event.get 1,
              Event.issue (Call.DeepLocate path flags (HandlerRef.pipeline 0))],
            out := Except.ok st } := by
    simp [Operation.RunImpl, DeepLocateImpl.RunImpl, tryCatch, getArg, issue, bind, Step.bind,
      Arg.Get, hsub]
  have hnot : e.IsOK = false := by simp [XRootDStatus.IsOK, horigin]
  have hdel : (Operation.DeepLocate (Arg.bound path) (Arg.bound flags)).Run fs 0
      = [{ handler := HandlerRef.pipeline 0, status := e, response := r }] := by
    simp [Operation.Run, hrun, hacc, issued, FileSystem.completions, hsub, hans,
      HandlerRef.HandleResponse]
  have hpipe : Pipeline.Run fs
      [fun _ => Operation.DeepLocate (Arg.bound path) (Arg.bound flags),
       fun slot => Operation.DirList (Arg.forwarded (slot.bind fwd)) (Arg.bound dflags)]
      0 none
        = { trace := [(0, Event.get 0), (0, Event.get 1),
              (0, Event.issue (Call.DeepLocate path flags (HandlerRef.pipeline 0)))],
            terminal := [(e, r)] } := by
    simp [Pipeline.Run, hrun, hdel, hnot]
  rw [hpipe]
  exact ⟨rfl, by simp, (e, r), rfl, horigin, hcode⟩

theorem dirList_not_run_after_deepLocate_failure_witness :
    (answeringStub { origin := Origin.Protocol, code := 3011, message := "no such file" }
        none).submit (Call.DeepLocate "/data" 0 (HandlerRef.pipeline 0))
        = Except.ok XRootDStatus.OK
      ∧ XRootDStatus.OK.IsOK = true
      ∧ (Pipeline.Run
          (answeringStub { origin := Origin.Protocol, code := 3011, message := "no such file" }
            none)
          [fun _ => Operation.DeepLocate (Arg.bound "/data") (Arg.bound 0),
           fun slot => Operation.DirList
             (Arg.forwarded (slot.bind fun _ => some "host:1094")) (Arg.bound 1)]
          0 none).trace
          = [(0, Event.get 0), (0, Event.get 1),
             (0, Event.issue (Call.DeepLocate "/data" 0 (HandlerRef.pipeline 0)))] :=
  ⟨rfl, rfl,
    (dirList_not_run_after_deepLocate_failure
      (answeringStub { origin := Origin.Protocol, code := 3011, message := "no such file" }
        none)
      "/data" 0 1 (fun _ => some "host:1094") XRootDStatus.OK
      { origin := Origin.Protocol, code := 3011, message := "no such file" } none
      rfl rfl rfl rfl rfl).1⟩

/-- C11: for every path `p` and flag set `f`, Locate bound to `(p, f)` issues the
locate request of the file system with `(p, f)` and DeepLocate bound to `(p, f)`
the deep-locate request with `(p, f)`, each passing the handler of the
operation; neither issues the request of the other, and the flags reach the
file system unchanged. -/
theorem locate_and_deepLocate_issue_own_request (fs : FileSystem) (h : HandlerRef)
    (p : String) (f : Nat) :
    (LocateImpl.RunImpl fs h (Arg.bound p) (Arg.bound f)).trace
        = [Event.get 0, Event.get 1, Event.issue (Call.Locate p f h)]
      ∧ (DeepLocateImpl.RunImpl fs h (Arg.bound p) (Arg.bound f)).trace
        = [Event.get 0, Event.get 1, Event.issue (Call.DeepLocate p f h)]
      ∧ (∀ q g k, Call.DeepLocate q g k
          ∉ issued (LocateImpl.RunImpl fs h (Arg.bound p) (Arg.bound f)).trace)
      ∧ (∀ q g k, Call.Locate q g k
          ∉ issued (DeepLocateImpl.RunImpl fs h (Arg.bound p) (Arg.bound f)).trace) := by
  have hl : (LocateImpl.RunImpl fs h (Arg.bound p) (Arg.bound f)).trace
      = [Event.get 0, Event.get 1, Event.issue (Call.Locate p f h)] := by
    rw [LocateImpl.RunImpl, tryCatch_trace]
    rfl
  have hd : (DeepLocateImpl.RunImpl fs h (Arg.bound p) (Arg.bound f)).trace
      = [Event.get 0, Event.get 1, Event.issue (Call.DeepLocate p f h)] := by
    rw [DeepLocateImpl.RunImpl, tryCatch_trace]
    rfl
  refine ⟨hl, hd, ?_, ?_⟩
  · intro q g k
    rw [hl]
    simp [issued]
  · intro q g k
    rw [hd]
    simp [issued]

/-- C12: for every query code `c` and buffer `b`, running Query bound to `(c, b)`
issues the query request of the file system with code `c` and with a buffer
that has the size and the bytes of `b`. -/
theorem query_issues_code_and_buffer (fs : FileSystem) (h : HandlerRef) (c : Nat)
    (b : Buffer) :
    (QueryImpl.RunImpl fs h (Arg.bound c) (Arg.bound b)).trace
        = [Event.get 0, Event.get 1, Event.issue (Call.Query c b h)]
      ∧ ∀ c2 b2 h2,
          Call.Query c2 b2 h2
              ∈ issued (QueryImpl.RunImpl fs h (Arg.bound c) (Arg.bound b)).trace →
          c2 = c ∧ b2.length = b.length ∧ b2 = b := by
  have hq : (QueryImpl.RunImpl fs h (Arg.bound c) (Arg.bound b)).trace
      = [Event.get 0, Event.get 1, Event.issue (Call.Query c b h)] := by
    rw [QueryImpl.RunImpl, tryCatch_trace]
    rfl
  refine ⟨hq, ?_⟩
  intro c2 b2 h2 hmem
  rw [hq] at hmem
  simp [issued] at hmem
  obtain ⟨rfl, rfl, _⟩ := hmem
  exact ⟨rfl, rfl, rfl⟩

/-- C15: for every path `p` and every combination `f` of directory-listing flags,
running DirList bound to `(p, f)` issues the directory-listing request of the
file system with path `p` and exactly the flags `f`. -/
theorem dirList_issues_path_and_flags (fs : FileSystem) (h : HandlerRef) (p : String)
    (f : Nat) :
    (DirListImpl.RunImpl fs h (Arg.bound p) (Arg.bound f)).trace
      = [Event.get 0, Event.get 1, Event.issue (Call.DirList p f h)] := by
  rw [DirListImpl.RunImpl, tryCatch_trace]
  rfl

/-- C18: for every path `p`, flag set `f` and access mode `m`, running MkDir bound
to `(p, f, m)` issues the make-directory request of the file system with path
`p`, with `f` as its flags and `m` as its access mode, not exchanged and
unchanged. -/
theorem mkDir_issues_path_flags_mode (fs : FileSystem) (h : HandlerRef) (p : String)
    (f m : Nat) :
    (MkDirImpl.RunImpl fs h (Arg.bound p) (Arg.bound f) (Arg.bound m)).trace
      = [Event.get 0, Event.get 1, Event.get 2, Event.issue (Call.MkDir p f m h)] := by
  rw [MkDirImpl.RunImpl, tryCatch_trace]
  rfl

/-- C19: Ping and Protocol take no arguments and have no local failure path: a
run of Ping consists of exactly one ping request and a run of Protocol of
exactly one protocol request to the file system, passing the handler of the
operation, and `RunImpl` ends the way that request ends, so it returns the
status the request returned. -/
theorem ping_and_protocol_issue_one_request (fs : FileSystem) (h : HandlerRef) :
    Operation.Ping.faults = [] ∧ Operation.Protocol.faults = []
      ∧ (PingImpl.RunImpl fs h).trace = [Event.issue (Call.Ping h)]
      ∧ (PingImpl.RunImpl fs h).out = fs.submit (Call.Ping h)
      ∧ (∀ st, fs.submit (Call.Ping h) = Except.ok st →
          (PingImpl.RunImpl fs h).out = Except.ok st)
      ∧ (ProtocolImpl.RunImpl fs h).trace = [Event.issue (Call.Protocol h)]
      ∧ (ProtocolImpl.RunImpl fs h).out = fs.submit (Call.Protocol h)
      ∧ (∀ st, fs.submit (Call.Protocol h) = Except.ok st →
          (ProtocolImpl.RunImpl fs h).out = Except.ok st) :=
  ⟨rfl, rfl, rfl, rfl, fun _ hst => hst, rfl, rfl, fun _ hst => hst⟩

/-- C20: each of Rm, RmDir, ChMod, StatVFS, SendInfo and ListXAttr, when all its
arguments resolve, reads them in declared order and issues the request of its
own kind with the resolved values unchanged: Rm a file removal (not a directory
removal), RmDir a directory removal, ChMod a change of mode with (path, mode),
StatVFS a stat-VFS, SendInfo a send-info, ListXAttr an attribute listing. -/
theorem simple_operations_issue_own_request (fs : FileSystem) (h : HandlerRef)
    (path info : Arg String) (mode : Arg Nat) (p i : String) (m : Nat)
    (hp : path.Get = Except.ok p) (hi : info.Get = Except.ok i)
    (hm : mode.Get = Except.ok m) :
    (RmImpl.RunImpl fs h path).trace = [Event.get 0, Event.issue (Call.Rm p h)]
      ∧ (RmDirImpl.RunImpl fs h path).trace = [Event.get 0, Event.issue (Call.RmDir p h)]
      ∧ (ChModImpl.RunImpl fs h path mode).trace
        = [Event.get 0, Event.get 1, Event.issue (Call.ChMod p m h)]
      ∧ (StatVFSImpl.RunImpl fs h path).trace
        = [Event.get 0, Event.issue (Call.StatVFS p h)]
      ∧ (SendInfoImpl.RunImpl fs h info).trace
        = [Event.get 0, Event.issue (Call.SendInfo i h)]
      ∧ (ListXAttrFsImpl.RunImpl fs h path).trace
        = [Event.get 0, Event.issue (Call.ListXAttr p h)] := by
  refine ⟨?_, ?_, ?_, ?_, ?_, ?_⟩
  · rw [RmImpl.RunImpl, tryCatch_trace, getArg_bind_ok 0 _ hp]
    rfl
  · rw [RmDirImpl.RunImpl, tryCatch_trace, getArg_bind_ok 0 _ hp]
    rfl
  · rw [ChModImpl.RunImpl, tryCatch_trace, getArg_bind_ok 0 _ hp]
    simp only [getArg_bind_ok 1 _ hm]
    rfl
  · rw [StatVFSImpl.RunImpl, tryCatch_trace, getArg_bind_ok 0 _ hp]
    rfl
  · rw [SendInfoImpl.RunImpl, tryCatch_trace, getArg_bind_ok 0 _ hi]
    rfl
  · rw [ListXAttrFsImpl.RunImpl, tryCatch_trace, getArg_bind_ok 0 _ hp]
    rfl

theorem simple_operations_issue_own_request_witness :
    (Arg.forwarded (some "/f") : Arg String).Get = Except.ok "/f"
      ∧ (RmImpl.RunImpl statStub (HandlerRef.pipeline 0) (Arg.forwarded (some "/f"))).trace
        = [Event.get 0, Event.issue (Call.Rm "/f" (HandlerRef.pipeline 0))]
      ∧ (ChModImpl.RunImpl statStub (HandlerRef.pipeline 0) (Arg.forwarded (some "/f"))
          (Arg.bound 493)).trace
        = [Event.get 0, Event.get 1,
           Event.issue (Call.ChMod "/f" 493 (HandlerRef.pipeline 0))] :=
  have hw := simple_operations_issue_own_request statStub (HandlerRef.pipeline 0)
    (Arg.forwarded (some "/f")) (Arg.bound "monitoring") (Arg.bound 493)
    "/f" "monitoring" 493 rfl rfl rfl
  ⟨rfl, hw.1, hw.2.2.1⟩

theorem issued_setXAttr_single (fs : FileSystem) (h : HandlerRef) (p n v : String) :
    issued (SetXAttrFsImpl.RunImpl fs h (Arg.bound p) (Arg.bound n) (Arg.bound v)).trace
      = [Call.SetXAttr p [(n, v)] (HandlerRef.UnpackXAttrStatus h)] := by
  rw [SetXAttrFsImpl.RunImpl, tryCatch_trace]
  simp only [getArg, newHandler, issue, bind, Step.bind, Arg.Get]
  cases fs.submit (Call.SetXAttr p ([] ++ [(n, v)]) (HandlerRef.UnpackXAttrStatus h)) with
  | error t => simp [issued]
  | ok st => cases hok : st.IsOK <;> simp [issued, hok, deleteHandler, pure]

theorem issued_getXAttr_single (fs : FileSystem) (h : HandlerRef) (p n : String) :
    issued (GetXAttrFsImpl.RunImpl fs h (Arg.bound p) (Arg.bound n)).trace
      = [Call.GetXAttr p [n] (HandlerRef.UnpackXAttr h)] := by
  rw [GetXAttrFsImpl.RunImpl, tryCatch_trace]
  simp only [getArg, newHandler, issue, bind, Step.bind, Arg.Get]
  cases fs.submit (Call.GetXAttr p ([] ++ [n]) (HandlerRef.UnpackXAttr h)) with
  | error t => simp [issued]
  | ok st => cases hok : st.IsOK <;> simp [issued, hok, deleteHandler, pure]

theorem issued_delXAttr_single (fs : FileSystem) (h : HandlerRef) (p n : String) :
    issued (DelXAttrFsImpl.RunImpl fs h (Arg.bound p) (Arg.bound n)).trace
      = [Call.DelXAttr p [n] (HandlerRef.UnpackXAttrStatus h)] := by
  rw [DelXAttrFsImpl.RunImpl, tryCatch_trace]
  simp only [getArg, newHandler, issue, bind, Step.bind, Arg.Get]
  cases fs.submit (Call.DelXAttr p ([] ++ [n]) (HandlerRef.UnpackXAttrStatus h)) with
  | error t => simp [issued]
  | ok st => cases hok : st.IsOK <;> simp [issued, hok, deleteHandler, pure]

/-- C13: each single-attribute operation issues the request its bulk counterpart
issues for the one-element list: for all strings `p`, `n`, `v`, single
SetXAttr(p, n, v) and bulk SetXAttr(p, [(n, v)]) both issue the set request with
path `p` and the list `[(n, v)]` (`n` the name, `v` the value of the only pair),
and single GetXAttr(p, n), DelXAttr(p, n) issue the get and delete requests with
path `p` and the list `[n]`, as the bulk operations do for `[n]`.  The requests
of a pair differ in the handler only: the single operation passes an unpacking
wrapper around its handler. -/
theorem single_xattr_issues_bulk_request (fs : FileSystem) (h : HandlerRef) (p n v : String) :
    (issued (SetXAttrFsImpl.RunImpl fs h (Arg.bound p) (Arg.bound n) (Arg.bound v)).trace
        = [Call.SetXAttr p [(n, v)] (HandlerRef.UnpackXAttrStatus h)]
      ∧ issued (SetXAttrFsBulkImpl.RunImpl fs h (Arg.bound p) (Arg.bound [(n, v)])).trace
        = [Call.SetXAttr p [(n, v)] h])
      ∧ (issued (GetXAttrFsImpl.RunImpl fs h (Arg.bound p) (Arg.bound n)).trace
          = [Call.GetXAttr p [n] (HandlerRef.UnpackXAttr h)]
        ∧ issued (GetXAttrFsBulkImpl.RunImpl fs h (Arg.bound p) (Arg.bound [n])).trace
          = [Call.GetXAttr p [n] h])
      ∧ (issued (DelXAttrFsImpl.RunImpl fs h (Arg.bound p) (Arg.bound n)).trace
          = [Call.DelXAttr p [n] (HandlerRef.UnpackXAttrStatus h)]
        ∧ issued (DelXAttrFsBulkImpl.RunImpl fs h (Arg.bound p) (Arg.bound [n])).trace
          = [Call.DelXAttr p [n] h]) := by
  refine ⟨⟨issued_setXAttr_single fs h p n v, ?_⟩, ⟨issued_getXAttr_single fs h p n, ?_⟩,
    ⟨issued_delXAttr_single fs h p n, ?_⟩⟩
  · rw [SetXAttrFsBulkImpl.RunImpl, tryCatch_trace]
    rfl
  · rw [GetXAttrFsBulkImpl.RunImpl, tryCatch_trace]
    rfl
  · rw [DelXAttrFsBulkImpl.RunImpl, tryCatch_trace]
    rfl

/-- C16: for every file list `L` (empty or with repeated entries), flag set `f` and
priority `q` in 0..255, running Prepare bound to `(L, f, q)` issues the prepare
request of the file system with the list `L` itself (same length, order and
repeated entries), with flags `f` and with priority `q`. -/
theorem prepare_issues_list_flags_priority (fs : FileSystem) (h : HandlerRef)
    (L : List String) (f q : Nat) (hq : q < 256) :
    (PrepareImpl.RunImpl fs h (Arg.bound L) (Arg.bound f) (Arg.bound q)).trace
      = [Event.get 0, Event.get 1, Event.get 2, Event.issue (Call.Prepare L f q h)] := by
  have huint : uint8_t q = q := Nat.mod_eq_of_lt (by simpa using hq)
  rw [PrepareImpl.RunImpl, tryCatch_trace]
  simp only [getArg, issue, bind, Step.bind, Arg.Get, huint]
  rfl

theorem prepare_issues_list_flags_priority_witness :
    255 < 256
      ∧ (PrepareImpl.RunImpl statStub (HandlerRef.pipeline 0) (Arg.bound ["/f", "/f"])
          (Arg.bound 8) (Arg.bound 255)).trace
        = [Event.get 0, Event.get 1, Event.get 2,
           Event.issue (Call.Prepare ["/f", "/f"] 8 255 (HandlerRef.pipeline 0))]
      ∧ (PrepareImpl.RunImpl statStub (HandlerRef.pipeline 0) (Arg.bound [])
          (Arg.bound 8) (Arg.bound 0)).trace
        = [Event.get 0, Event.get 1, Event.get 2,
           Event.issue (Call.Prepare [] 8 0 (HandlerRef.pipeline 0))] :=
  ⟨by decide,
    prepare_issues_list_flags_priority statStub (HandlerRef.pipeline 0) ["/f", "/f"] 8 255
      (by decide),
    prepare_issues_list_flags_priority statStub (HandlerRef.pipeline 0) [] 8 0 (by decide)⟩

/-- C17: for every path `p` and every size `n` with `0 <= n < 2^64`, running
Truncate bound to `(p, n)` issues the truncate request of the file system with
path `p` and size exactly `n`: the 64-bit size is neither narrowed nor wrapped. -/
theorem truncate_issues_path_and_size (fs : FileSystem) (h : HandlerRef) (p : String)
    (n : Nat) (hn : n < 2 ^ 64) :
    (TruncateFsImpl.RunImpl fs h (Arg.bound p) (Arg.bound n)).trace
      = [Event.get 0, Event.get 1, Event.issue (Call.Truncate p n h)] := by
  have huint : uint64_t n = n := Nat.mod_eq_of_lt hn
  rw [TruncateFsImpl.RunImpl, tryCatch_trace]
  simp only [getArg, issue, bind, Step.bind, Arg.Get, huint]
  rfl

theorem truncate_issues_path_and_size_witness :
    18446744073709551615 < 2 ^ 64
      ∧ (TruncateFsImpl.RunImpl statStub (HandlerRef.pipeline 0) (Arg.bound "/f")
          (Arg.bound 18446744073709551615)).trace
        = [Event.get 0, Event.get 1,
           Event.issue (Call.Truncate "/f" 18446744073709551615 (HandlerRef.pipeline 0))] :=
  ⟨by norm_num,
    truncate_issues_path_and_size statStub (HandlerRef.pipeline 0) "/f" 18446744073709551615
      (by norm_num)⟩

/-- C14: a single-attribute SetXAttr, GetXAttr or DelXAttr surfaces the outcome of
its request as one scalar status: for each of the three operations, if the
endpoint answers its call with the immediate status `st`, in particular a
synchronous rejection, `RunImpl` returns exactly `st`; and the response the
operation declares is scalar, not a vector: `void` for SetXAttr and DelXAttr,
one string for GetXAttr. -/
theorem single_xattr_rejection_is_scalar (fs : FileSystem) (h : HandlerRef)
    (p n v : String) :
    (∀ st, fs.submit (Call.SetXAttr p [(n, v)] (HandlerRef.UnpackXAttrStatus h))
          = Except.ok st →
        (SetXAttrFsImpl.RunImpl fs h (Arg.bound p) (Arg.bound n) (Arg.bound v)).out
          = Except.ok st)
      ∧ (∀ st, fs.submit (Call.GetXAttr p [n] (HandlerRef.UnpackXAttr h)) = Except.ok st →
          (GetXAttrFsImpl.RunImpl fs h (Arg.bound p) (Arg.bound n)).out = Except.ok st)
      ∧ (∀ st, fs.submit (Call.DelXAttr p [n] (HandlerRef.UnpackXAttrStatus h))
            = Except.ok st →
          (DelXAttrFsImpl.RunImpl fs h (Arg.bound p) (Arg.bound n)).out = Except.ok st)
      ∧ (Operation.SetXAttr (Arg.bound p) (Arg.bound n) (Arg.bound v)).declaredResp = Resp.void
      ∧ (Operation.GetXAttr (Arg.bound p) (Arg.bound n)).declaredResp = Resp.string
      ∧ (Operation.DelXAttr (Arg.bound p) (Arg.bound n)).declaredResp = Resp.void
      ∧ Resp.void.isVector = false ∧ Resp.string.isVector = false := by
  refine ⟨?_, ?_, ?_, rfl, rfl, rfl, rfl, rfl⟩
  · intro st hset
    have hset2 : fs.submit (Call.SetXAttr p ([] ++ [(n, v)]) (HandlerRef.UnpackXAttrStatus h))
        = Except.ok st := hset
    rw [SetXAttrFsImpl.RunImpl, tryCatch_out]
    simp only [getArg, newHandler, issue, bind, Step.bind, Arg.Get, hset2]
    cases hok : st.IsOK <;> simp [hok, deleteHandler, pure, tryCatch]
  · intro st hget
    have hget2 : fs.submit (Call.GetXAttr p ([] ++ [n]) (HandlerRef.UnpackXAttr h))
        = Except.ok st := hget
    rw [GetXAttrFsImpl.RunImpl, tryCatch_out]
    simp only [getArg, newHandler, issue, bind, Step.bind, Arg.Get, hget2]
    cases hok : st.IsOK <;> simp [hok, deleteHandler, pure, tryCatch]
  · intro st hdel
    have hdel2 : fs.submit (Call.DelXAttr p ([] ++ [n]) (HandlerRef.UnpackXAttrStatus h))
        = Except.ok st := hdel
    rw [DelXAttrFsImpl.RunImpl, tryCatch_out]
    simp only [getArg, newHandler, issue, bind, Step.bind, Arg.Get, hdel2]
    cases hok : st.IsOK <;> simp [hok, deleteHandler, pure, tryCatch]

theorem single_xattr_rejection_is_scalar_witness :
    (SetXAttrFsImpl.RunImpl
        (mixedStub { origin := Origin.Local, code := 3, message := "invalid operation" }
          XRootDStatus.OK forwardingError)
        (HandlerRef.pipeline 0) (Arg.bound "/f") (Arg.bound "user.a") (Arg.bound "1")).out
        = Except.ok { origin := Origin.Local, code := 3, message := "invalid operation" }
      ∧ (GetXAttrFsImpl.RunImpl
          (mixedStub { origin := Origin.Local, code := 3, message := "invalid operation" }
            XRootDStatus.OK forwardingError)
          (HandlerRef.pipeline 0) (Arg.bound "/f") (Arg.bound "user.a")).out
        = Except.ok XRootDStatus.OK
      ∧ (DelXAttrFsImpl.RunImpl
          (mixedStub { origin := Origin.Local, code := 3, message := "invalid operation" }
            XRootDStatus.OK forwardingError)
          (HandlerRef.pipeline 0) (Arg.bound "/f") (Arg.bound "user.a")).out
        = Except.ok forwardingError :=
  have hw := single_xattr_rejection_is_scalar
    (mixedStub { origin := Origin.Local, code := 3, message := "invalid operation" }
      XRootDStatus.OK forwardingError)
    (HandlerRef.pipeline 0) "/f" "user.a" "1"
  ⟨hw.1 _ rfl, hw.2.1 _ rfl, hw.2.2.1 _ rfl⟩

/-- C21: for every path `p` and every list, the bulk extended-attribute operations
pass their list to the file system unchanged: bulk SetXAttr(p, A) issues the set
request with the list `A` itself (its pairs in the same order and number), and
bulk GetXAttr(p, N) and DelXAttr(p, N) issue their requests with the list `N`. -/
theorem bulk_xattr_pass_list_unchanged (fs : FileSystem) (h : HandlerRef) (p : String)
    (A : List xattr_t) (N : List String) :
    (SetXAttrFsBulkImpl.RunImpl fs h (Arg.bound p) (Arg.bound A)).trace
        = [Event.get 0, Event.get 1, Event.issue (Call.SetXAttr p A h)]
      ∧ (GetXAttrFsBulkImpl.RunImpl fs h (Arg.bound p) (Arg.bound N)).trace
        = [Event.get 0, Event.get 1, Event.issue (Call.GetXAttr p N h)]
      ∧ (DelXAttrFsBulkImpl.RunImpl fs h (Arg.bound p) (Arg.bound N)).trace
        = [Event.get 0, Event.get 1, Event.issue (Call.DelXAttr p N h)] := by
  refine ⟨?_, ?_, ?_⟩
  · rw [SetXAttrFsBulkImpl.RunImpl, tryCatch_trace]
    rfl
  · rw [GetXAttrFsBulkImpl.RunImpl, tryCatch_trace]
    rfl
  · rw [DelXAttrFsBulkImpl.RunImpl, tryCatch_trace]
    rfl

/-- C22 (does not hold as stated): the state-converting constructor is declared
for every source state.  A Ping operation built Unbound and converted to
Runnable (`HasHndl = true`) is converted back by the same constructor to an
operation with `HasHndl = false`. -/
theorem convert_runnable_to_unbound :
    (FileSystemOperation.convert true
        (FileSystemOperation.ofPointer { address := 1 } Operation.Ping)).HasHndl = true
      ∧ (FileSystemOperation.convert false
          (FileSystemOperation.convert true
            (FileSystemOperation.ofPointer { address := 1 } Operation.Ping))).HasHndl = false :=
  ⟨rfl, rfl⟩

/-- C22 (amended): for every operation kind, the state-converting constructor
yields an operation in the state `HasHndl` of the class being constructed,
whatever the state of the operation it converts: from Unbound it yields a
Runnable operation when `HasHndl = true`, and it also yields an Unbound one from
a Runnable one when `HasHndl = false`. -/
theorem convert_yields_target_state (src HasHndl : Bool) (op : FileSystemOperation src) :
    (FileSystemOperation.convert HasHndl op).HasHndl = HasHndl :=
  rfl

/-- C23: every operation value obtained from the public names of the catalogue is
in the Unbound state (`HasHndl = false`): the value built by the constructors
of a class named by a typedef (`LocateImpl<false>`, ...), for any kind and
arguments, from a pointer or from a reference, and the value returned by each
factory function, in both overloads. -/
theorem public_names_are_unbound (p : FileSystemPtr) (r : FileSystemRef) (a : Operation)
    (path name value : Arg String) (size : Arg Nat) (attrs : Arg (List xattr_t))
    (names : Arg (List String)) :
    (FileSystemOperation.ofPointer p a).HasHndl = false
      ∧ (FileSystemOperation.ofReference r a).HasHndl = false
      ∧ (Truncate p path size).HasHndl = false ∧ (TruncateRef r path size).HasHndl = false
      ∧ (Stat p path).HasHndl = false ∧ (StatRef r path).HasHndl = false
      ∧ (SetXAttr p path name value).HasHndl = false
      ∧ (SetXAttrRef r path name value).HasHndl = false
      ∧ (SetXAttrBulk p path attrs).HasHndl = false
      ∧ (SetXAttrBulkRef r path attrs).HasHndl = false
      ∧ (GetXAttr p path name).HasHndl = false ∧ (GetXAttrRef r path name).HasHndl = false
      ∧ (GetXAttrBulk p path names).HasHndl = false
      ∧ (GetXAttrBulkRef r path names).HasHndl = false
      ∧ (DelXAttr p path name).HasHndl = false ∧ (DelXAttrRef r path name).HasHndl = false
      ∧ (DelXAttrBulk p path names).HasHndl = false
      ∧ (DelXAttrBulkRef r path names).HasHndl = false
      ∧ (ListXAttr p path).HasHndl = false ∧ (ListXAttrRef r path).HasHndl = false :=
  ⟨rfl, rfl, rfl, rfl, rfl, rfl, rfl, rfl, rfl, rfl, rfl, rfl, rfl, rfl, rfl, rfl, rfl, rfl,
    rfl, rfl⟩

/-- C25 (does not hold of the code): Stat and RmDir are distinct operation kinds,
neither a single/bulk pair, and for the path `/d` both issue the same request,
the directory removal of `/d`; Stat declares a non-void response (`StatInfo`)
and RmDir a void one. -/
theorem stat_and_rmdir_issue_same_request :
    issued ((Operation.Stat (Arg.bound "/d")).RunImpl statStub (HandlerRef.pipeline 0)).trace
        = [Call.RmDir "/d" (HandlerRef.pipeline 0)]
      ∧ issued ((Operation.RmDir (Arg.bound "/d")).RunImpl statStub
          (HandlerRef.pipeline 0)).trace
        = [Call.RmDir "/d" (HandlerRef.pipeline 0)]
      ∧ (Operation.Stat (Arg.bound "/d")).kind ≠ (Operation.RmDir (Arg.bound "/d")).kind
      ∧ (Operation.Stat (Arg.bound "/d")).declaredResp = Resp.StatInfo
      ∧ (Operation.RmDir (Arg.bound "/d")).declaredResp = Resp.void := by
  refine ⟨rfl, rfl, ?_, rfl, rfl⟩
  simp [Operation.kind]

/-- C28: converting an operation from one handler state to another keeps what the
operation will send: the converted operation points to the same file system and
holds the same arguments as the source, so with any handler and on any file
system its run is the run of the source: the same reads, the same request, the
same outcome. -/
theorem convert_preserves_request (src HasHndl : Bool) (op : FileSystemOperation src) :
    (FileSystemOperation.convert HasHndl op).filesystem = op.filesystem
      ∧ (FileSystemOperation.convert HasHndl op).args = op.args
      ∧ ∀ (memory : Memory) (h : HandlerRef),
          ((FileSystemOperation.convert HasHndl op).RunImpl memory h).1
            = (op.RunImpl memory h).1 :=
  ⟨rfl, rfl, fun _ _ => rfl⟩

/-- C30: building an operation from a file system reference is building it from a
pointer to the same file system: for every kind and all argument values the
constructor taking `FileSystem&` yields the operation that the constructor
taking `FileSystem*` yields for `&fs` (same endpoint, same arguments, same
Unbound state), each factory taking a reference yields what the factory taking
the pointer yields, and the two operations have the same run. -/
theorem reference_and_pointer_build_same_operation (r : FileSystemRef) (a : Operation)
    (path name value : Arg String) (size : Arg Nat) (attrs : Arg (List xattr_t))
    (names : Arg (List String)) :
    FileSystemOperation.ofReference r a = FileSystemOperation.ofPointer r.addressOf a
      ∧ (FileSystemOperation.ofReference r a).filesystem = r.addressOf
      ∧ (FileSystemOperation.ofReference r a).args = a
      ∧ (FileSystemOperation.ofReference r a).HasHndl
        = (FileSystemOperation.ofPointer r.addressOf a).HasHndl
      ∧ TruncateRef r path size = Truncate r.addressOf path size
      ∧ StatRef r path = Stat r.addressOf path
      ∧ SetXAttrRef r path name value = SetXAttr r.addressOf path name value
      ∧ SetXAttrBulkRef r path attrs = SetXAttrBulk r.addressOf path attrs
      ∧ GetXAttrRef r path name = GetXAttr r.addressOf path name
      ∧ GetXAttrBulkRef r path names = GetXAttrBulk r.addressOf path names
      ∧ DelXAttrRef r path name = DelXAttr r.addressOf path name
      ∧ DelXAttrBulkRef r path names = DelXAttrBulk r.addressOf path names
      ∧ ListXAttrRef r path = ListXAttr r.addressOf path
      ∧ ∀ (memory : Memory) (h : HandlerRef),
          ((FileSystemOperation.ofReference r a).RunImpl memory h).1
            = ((FileSystemOperation.ofPointer r.addressOf a).RunImpl memory h).1 :=
  ⟨rfl, rfl, rfl, rfl, rfl, rfl, rfl, rfl, rfl, rfl, rfl, rfl, rfl, fun _ _ => rfl⟩

theorem Kind.toString_injective (k1 k2 : Kind) (h : k1.ToString = k2.ToString) : k1 = k2 := by
  cases k1 <;> cases k2 <;> first | rfl | (simp [Kind.ToString] at h)

/-- C29: the names returned by `ToString()` identify the operation kind: for two
operations, in whatever handler states and with whatever arguments,
`ToString()` returns the same string if and only if they are of the same kind
(one of the 23 classes, single and bulk extended-attribute operations counted
separately). -/
theorem toString_identifies_kind (b1 b2 : Bool) (x : FileSystemOperation b1)
    (y : FileSystemOperation b2) :
    x.ToString = y.ToString ↔ x.args.kind = y.args.kind :=
  ⟨fun h => Kind.toString_injective _ _ h, fun h => congrArg Kind.ToString h⟩

theorem sameIssued_get {α : Type} (i : Nat) (a : Arg α) (k1 k2 : α → Step XRootDStatus)
    (hk : ∀ x, issued (k1 x).trace = issued (k2 x).trace) :
    issued (getArg i a >>= k1).trace = issued (getArg i a >>= k2).trace := by
  cases ha : a.Get with
  | error t => rw [getArg_bind_error i k1 ha, getArg_bind_error i k2 ha]
  | ok v =>
    rw [getArg_bind_ok i k1 ha, getArg_bind_ok i k2 ha]
    simp [issued, hk v]

theorem issued_wrapped (fs : FileSystem) (w : HandlerRef) (mk : HandlerRef → Call) :
    issued (do
      let wrapper ← newHandler w
      let st ← issue fs (mk wrapper)
      if !st.IsOK then deleteHandler wrapper
      pure st : Step XRootDStatus).trace = [mk w] := by
  simp only [newHandler, issue, bind, Step.bind]
  cases hs : fs.submit (mk w) with
  | error t => simp [issued]
  | ok st => cases hok : st.IsOK <;> simp [issued, hok, deleteHandler, pure]

theorem sameIssued_wrapped (fs1 fs2 : FileSystem) (w : HandlerRef) (mk : HandlerRef → Call) :
    issued (do
      let wrapper ← newHandler w
      let st ← issue fs1 (mk wrapper)
      if !st.IsOK then deleteHandler wrapper
      pure st : Step XRootDStatus).trace
    = issued (do
      let wrapper ← newHandler w
      let st ← issue fs2 (mk wrapper)
      if !st.IsOK then deleteHandler wrapper
      pure st : Step XRootDStatus).trace := by
  rw [issued_wrapped fs1 w mk, issued_wrapped fs2 w mk]

theorem Operation.issued_RunImpl_congr (fs1 fs2 : FileSystem) (h : HandlerRef)
    (op : Operation) :
    issued (op.RunImpl fs1 h).trace = issued (op.RunImpl fs2 h).trace := by
  cases op with
  | Ping => rfl
  | Protocol => rfl
  | Rm p =>
    simp only [Operation.RunImpl, RmImpl.RunImpl, tryCatch_trace]
    exact sameIssued_get 0 p _ _ fun _ => rfl
  | RmDir p =>
    simp only [Operation.RunImpl, RmDirImpl.RunImpl, tryCatch_trace]
    exact sameIssued_get 0 p _ _ fun _ => rfl
  | Stat p =>
    simp only [Operation.RunImpl, StatFsImpl.RunImpl, tryCatch_trace]
    exact sameIssued_get 0 p _ _ fun _ => rfl
  | StatVFS p =>
    simp only [Operation.RunImpl, StatVFSImpl.RunImpl, tryCatch_trace]
    exact sameIssued_get 0 p _ _ fun _ => rfl
  | SendInfo p =>
    simp only [Operation.RunImpl, SendInfoImpl.RunImpl, tryCatch_trace]
    exact sameIssued_get 0 p _ _ fun _ => rfl
  | ListXAttr p =>
    simp only [Operation.RunImpl, ListXAttrFsImpl.RunImpl, tryCatch_trace]
    exact sameIssued_get 0 p _ _ fun _ => rfl
  | Locate p f =>
    simp only [Operation.RunImpl, LocateImpl.RunImpl, tryCatch_trace]
    exact sameIssued_get 0 p _ _ fun _ => sameIssued_get 1 f _ _ fun _ => rfl
  | DeepLocate p f =>
    simp only [Operation.RunImpl, DeepLocateImpl.RunImpl, tryCatch_trace]
    exact sameIssued_get 0 p _ _ fun _ => sameIssued_get 1 f _ _ fun _ => rfl
  | Mv p f =>
    simp only [Operation.RunImpl, MvImpl.RunImpl, tryCatch_trace]
    exact sameIssued_get 0 p _ _ fun _ => sameIssued_get 1 f _ _ fun _ => rfl
  | Query p f =>
    simp only [Operation.RunImpl, QueryImpl.RunImpl, tryCatch_trace]
    exact sameIssued_get 0 p _ _ fun _ => sameIssued_get 1 f _ _ fun _ => rfl
  | Truncate p f =>
    simp only [Operation.RunImpl, TruncateFsImpl.RunImpl, tryCatch_trace]
    exact sameIssued_get 0 p _ _ fun _ => sameIssued_get 1 f _ _ fun _ => rfl
  | ChMod p f =>
    simp only [Operation.RunImpl, ChModImpl.RunImpl, tryCatch_trace]
    exact sameIssued_get 0 p _ _ fun _ => sameIssued_get 1 f _ _ fun _ => rfl
  | DirList p f =>
    simp only [Operation.RunImpl, DirListImpl.RunImpl, tryCatch_trace]
    exact sameIssued_get 0 p _ _ fun _ => sameIssued_get 1 f _ _ fun _ => rfl
  | SetXAttrBulk p f =>
    simp only [Operation.RunImpl, SetXAttrFsBulkImpl.RunImpl, tryCatch_trace]
    exact sameIssued_get 0 p _ _ fun _ => sameIssued_get 1 f _ _ fun _ => rfl
  | GetXAttrBulk p f =>
    simp only [Operation.RunImpl, GetXAttrFsBulkImpl.RunImpl, tryCatch_trace]
    exact sameIssued_get 0 p _ _ fun _ => sameIssued_get 1 f _ _ fun _ => rfl
  | DelXAttrBulk p f =>
    simp only [Operation.RunImpl, DelXAttrFsBulkImpl.RunImpl, tryCatch_trace]
    exact sameIssued_get 0 p _ _ fun _ => sameIssued_get 1 f _ _ fun _ => rfl
  | MkDir p f m =>
    simp only [Operation.RunImpl, MkDirImpl.RunImpl, tryCatch_trace]
    exact sameIssued_get 0 p _ _ fun _ => sameIssued_get 1 f _ _ fun _ =>
      sameIssued_get 2 m _ _ fun _ => rfl
  | Prepare p f m =>
    simp only [Operation.RunImpl, PrepareImpl.RunImpl, tryCatch_trace]
    exact sameIssued_get 0 p _ _ fun _ => sameIssued_get 1 f _ _ fun _ =>
      sameIssued_get 2 m _ _ fun _ => rfl
  | SetXAttr p f m =>
    simp only [Operation.RunImpl, SetXAttrFsImpl.RunImpl, tryCatch_trace]
    exact sameIssued_get 0 p _ _ fun x => sameIssued_get 1 f _ _ fun y =>
      sameIssued_get 2 m _ _ fun z =>
        sameIssued_wrapped fs1 fs2 (HandlerRef.UnpackXAttrStatus h)
          (fun g => Call.SetXAttr x ([] ++ [(y, z)]) g)
  | GetXAttr p f =>
    simp only [Operation.RunImpl, GetXAttrFsImpl.RunImpl, tryCatch_trace]
    exact sameIssued_get 0 p _ _ fun x => sameIssued_get 1 f _ _ fun y =>
      sameIssued_wrapped fs1 fs2 (HandlerRef.UnpackXAttr h)
        (fun g => Call.GetXAttr x ([] ++ [y]) g)
  | DelXAttr p f =>
    simp only [Operation.RunImpl, DelXAttrFsImpl.RunImpl, tryCatch_trace]
    exact sameIssued_get 0 p _ _ fun x => sameIssued_get 1 f _ _ fun y =>
      sameIssued_wrapped fs1 fs2 (HandlerRef.UnpackXAttrStatus h)
        (fun g => Call.DelXAttr x ([] ++ [y]) g)

theorem Arg.afterGet_eq {α : Type} (a : Arg α) : a.afterGet = a := by
  cases a <;> rfl

theorem preserves_pure {σ α : Type} (a : α) : Preserves (pure a : Member σ α) :=
  fun _ => rfl

theorem preserves_bind {σ α β : Type} {m : Member σ α} {f : α → Member σ β}
    (hm : Preserves m) (hf : ∀ a, Preserves (f a)) : Preserves (m >>= f) := by
  intro s
  show (Member.bind m f s).state = s
  unfold Member.bind
  split
  · exact hm s
  · rename_i a _
    show (f a (m s).state).state = s
    rw [hm s]
    exact hf a s

theorem preserves_get {Args α : Type} {c : CellOf Args α} (hc : c.Lawful) :
    Preserves (Member.Get c) := by
  intro s
  cases s
  simp [Member.Get, Arg.afterGet_eq, hc _]

theorem preserves_call {Args : Type} (memory : Memory) (c : Call) :
    Preserves (Member.call memory c : Member (This Args) XRootDStatus) :=
  fun _ => rfl

theorem preserves_tryCatch {σ : Type} {body : Member σ XRootDStatus} (hb : Preserves body) :
    Preserves (Member.tryCatch body) := by
  intro s
  unfold Member.tryCatch
  split <;> exact hb s

theorem preserves_wrapped {Args : Type} (memory : Memory) (w : HandlerRef)
    (mk : HandlerRef → Call) :
    Preserves (do
      let wrapper ← Member.newHandler w
      let st ← Member.call memory (mk wrapper)
      if !st.IsOK then Member.deleteHandler wrapper
      pure st : Member (This Args) XRootDStatus) := by
  refine preserves_bind (fun _ => rfl) fun g => preserves_bind (preserves_call memory _) ?_
  intro st
  cases hok : st.IsOK
  · simp only [hok, Bool.not_false, if_true]
    exact preserves_bind (fun _ => rfl) fun _ => preserves_pure st
  · simp only [hok, Bool.not_true, Bool.false_eq_true, if_false]
    exact preserves_bind (preserves_pure _) fun _ => preserves_pure st

theorem cell1_0_lawful {α : Type} : (cell1_0 : CellOf (Arg α) α).Lawful :=
  fun _ => rfl

theorem cell2_0_lawful {α β : Type} : (cell2_0 : CellOf (Arg α × Arg β) α).Lawful :=
  fun _ => rfl

theorem cell2_1_lawful {α β : Type} : (cell2_1 : CellOf (Arg α × Arg β) β).Lawful :=
  fun _ => rfl

theorem cell3_0_lawful {α β γ : Type} :
    (cell3_0 : CellOf (Arg α × Arg β × Arg γ) α).Lawful :=
  fun _ => rfl

theorem cell3_1_lawful {α β γ : Type} :
    (cell3_1 : CellOf (Arg α × Arg β × Arg γ) β).Lawful :=
  fun _ => rfl

theorem cell3_2_lawful {α β γ : Type} :
    (cell3_2 : CellOf (Arg α × Arg β × Arg γ) γ).Lawful :=
  fun _ => rfl

theorem link_bind {σ α β : Type} {m : Member σ α} (f : α → Member σ β) (hm : Preserves m)
    (s : σ) : ((m >>= f) s).step = ((m s).step >>= fun a => (f a s).step) := by
  show (Member.bind m f s).step = Step.bind (m s).step fun a => (f a s).step
  unfold Member.bind Step.bind Ran.step
  rw [hm s]
  cases (m s).out <;> rfl

theorem link_get_bind {Args α β : Type} {c : CellOf Args α} (hc : c.Lawful)
    (f : α → Member (This Args) β) (s : This Args) :
    ((Member.Get c >>= f) s).step
      = (getArg c.index (c.get s.args) >>= fun a => (f a s).step) :=
  link_bind f (preserves_get hc) s

theorem link_tryCatch {σ : Type} (body : Member σ XRootDStatus) (s : σ) :
    (Member.tryCatch body s).step = tryCatch (body s).step := by
  unfold Member.tryCatch tryCatch Ran.step
  split <;> simp_all

theorem link_call {Args : Type} (memory : Memory) (c : Call) (s : This Args) :
    (Member.call memory c s).step = issue (memory s.filesystem) c :=
  rfl

theorem link_wrapped {Args : Type} (memory : Memory) (w : HandlerRef)
    (mk : HandlerRef → Call) (s : This Args) :
    ((do
      let wrapper ← Member.newHandler w
      let st ← Member.call memory (mk wrapper)
      if !st.IsOK then Member.deleteHandler wrapper
      pure st : Member (This Args) XRootDStatus) s).step
    = (do
      let wrapper ← newHandler w
      let st ← issue (memory s.filesystem) (mk wrapper)
      if !st.IsOK then deleteHandler wrapper
      pure st : Step XRootDStatus) := by
  simp only [bind, Member.bind, Step.bind, Member.newHandler, Member.call, newHandler, issue,
    Ran.step]
  cases hs : (memory s.filesystem).submit (mk w) with
  | error t => simp
  | ok st =>
    cases hok : st.IsOK <;>
      simp [hok, Member.deleteHandler, deleteHandler, pure, Member.bind, Step.bind]

theorem preserves_LocateImpl (memory : Memory) (h : HandlerRef) :
    Preserves (LocateImpl.RunImplOn memory h) :=
  preserves_tryCatch (preserves_bind (preserves_get cell2_0_lawful) fun _ =>
    preserves_bind (preserves_get cell2_1_lawful) fun _ =>
    preserves_call memory _)

theorem preserves_DeepLocateImpl (memory : Memory) (h : HandlerRef) :
    Preserves (DeepLocateImpl.RunImplOn memory h) :=
  preserves_tryCatch (preserves_bind (preserves_get cell2_0_lawful) fun _ =>
    preserves_bind (preserves_get cell2_1_lawful) fun _ =>
    preserves_call memory _)

theorem preserves_MvImpl (memory : Memory) (h : HandlerRef) :
    Preserves (MvImpl.RunImplOn memory h) :=
  preserves_tryCatch (preserves_bind (preserves_get cell2_0_lawful) fun _ =>
    preserves_bind (preserves_get cell2_1_lawful) fun _ =>
    preserves_call memory _)

theorem preserves_QueryImpl (memory : Memory) (h : HandlerRef) :
    Preserves (QueryImpl.RunImplOn memory h) :=
  preserves_tryCatch (preserves_bind (preserves_get cell2_0_lawful) fun _ =>
    preserves_bind (preserves_get cell2_1_lawful) fun _ =>
    preserves_call memory _)

theorem preserves_TruncateFsImpl (memory : Memory) (h : HandlerRef) :
    Preserves (TruncateFsImpl.RunImplOn memory h) :=
  preserves_tryCatch (preserves_bind (preserves_get cell2_0_lawful) fun _ =>
    preserves_bind (preserves_get cell2_1_lawful) fun _ =>
    preserves_call memory _)

theorem preserves_RmImpl (memory : Memory) (h : HandlerRef) :
    Preserves (RmImpl.RunImplOn memory h) :=
  preserves_tryCatch (preserves_bind (preserves_get cell1_0_lawful) fun _ =>
    preserves_call memory _)

theorem preserves_MkDirImpl (memory : Memory) (h : HandlerRef) :
    Preserves (MkDirImpl.RunImplOn memory h) :=
  preserves_tryCatch (preserves_bind (preserves_get cell3_0_lawful) fun _ =>
    preserves_bind (preserves_get cell3_1_lawful) fun _ =>
    preserves_bind (preserves_get cell3_2_lawful) fun _ =>
    preserves_call memory _)

theorem preserves_RmDirImpl (memory : Memory) (h : HandlerRef) :
    Preserves (RmDirImpl.RunImplOn memory h) :=
  preserves_tryCatch (preserves_bind (preserves_get cell1_0_lawful) fun _ =>
    preserves_call memory _)

theorem preserves_ChModImpl (memory : Memory) (h : HandlerRef) :
    Preserves (ChModImpl.RunImplOn memory h) :=
  preserves_tryCatch (preserves_bind (preserves_get cell2_0_lawful) fun _ =>
    preserves_bind (preserves_get cell2_1_lawful) fun _ =>
    preserves_call memory _)

theorem preserves_PingImpl (memory : Memory) (h : HandlerRef) :
    Preserves (PingImpl.RunImplOn memory h) :=
  preserves_call memory _

theorem preserves_StatFsImpl (memory : Memory) (h : HandlerRef) :
    Preserves (StatFsImpl.RunImplOn memory h) :=
  preserves_tryCatch (preserves_bind (preserves_get cell1_0_lawful) fun _ =>
    preserves_call memory _)

theorem preserves_StatVFSImpl (memory : Memory) (h : HandlerRef) :
    Preserves (StatVFSImpl.RunImplOn memory h) :=
  preserves_tryCatch (preserves_bind (preserves_get cell1_0_lawful) fun _ =>
    preserves_call memory _)

theorem preserves_ProtocolImpl (memory : Memory) (h : HandlerRef) :
    Preserves (ProtocolImpl.RunImplOn memory h) :=
  preserves_call memory _

theorem preserves_DirListImpl (memory : Memory) (h : HandlerRef) :
    Preserves (DirListImpl.RunImplOn memory h) :=
  preserves_tryCatch (preserves_bind (preserves_get cell2_0_lawful) fun _ =>
    preserves_bind (preserves_get cell2_1_lawful) fun _ =>
    preserves_call memory _)

theorem preserves_SendInfoImpl (memory : Memory) (h : HandlerRef) :
    Preserves (SendInfoImpl.RunImplOn memory h) :=
  preserves_tryCatch (preserves_bind (preserves_get cell1_0_lawful) fun _ =>
    preserves_call memory _)

theorem preserves_PrepareImpl (memory : Memory) (h : HandlerRef) :
    Preserves (PrepareImpl.RunImplOn memory h) :=
  preserves_tryCatch (preserves_bind (preserves_get cell3_0_lawful) fun _ =>
    preserves_bind (preserves_get cell3_1_lawful) fun _ =>
    preserves_bind (preserves_get cell3_2_lawful) fun _ =>
    preserves_call memory _)

theorem preserves_SetXAttrFsImpl (memory : Memory) (h : HandlerRef) :
    Preserves (SetXAttrFsImpl.RunImplOn memory h) :=
  preserves_tryCatch (preserves_bind (preserves_get cell3_0_lawful) fun x =>
    preserves_bind (preserves_get cell3_1_lawful) fun y =>
    preserves_bind (preserves_get cell3_2_lawful) fun z =>
    preserves_wrapped memory (HandlerRef.UnpackXAttrStatus h)
      (fun g => Call.SetXAttr x ([] ++ [(y, z)]) g))

theorem preserves_SetXAttrFsBulkImpl (memory : Memory) (h : HandlerRef) :
    Preserves (SetXAttrFsBulkImpl.RunImplOn memory h) :=
  preserves_tryCatch (preserves_bind (preserves_get cell2_0_lawful) fun _ =>
    preserves_bind (preserves_get cell2_1_lawful) fun _ =>
    preserves_call memory _)

theorem preserves_GetXAttrFsImpl (memory : Memory) (h : HandlerRef) :
    Preserves (GetXAttrFsImpl.RunImplOn memory h) :=
  preserves_tryCatch (preserves_bind (preserves_get cell2_0_lawful) fun x =>
    preserves_bind (preserves_get cell2_1_lawful) fun y =>
    preserves_wrapped memory (HandlerRef.UnpackXAttr h)
      (fun g => Call.GetXAttr x ([] ++ [y]) g))

theorem preserves_GetXAttrFsBulkImpl (memory : Memory) (h : HandlerRef) :
    Preserves (GetXAttrFsBulkImpl.RunImplOn memory h) :=
  preserves_tryCatch (preserves_bind (preserves_get cell2_0_lawful) fun _ =>
    preserves_bind (preserves_get cell2_1_lawful) fun _ =>
    preserves_call memory _)

theorem preserves_DelXAttrFsImpl (memory : Memory) (h : HandlerRef) :
    Preserves (DelXAttrFsImpl.RunImplOn memory h) :=
  preserves_tryCatch (preserves_bind (preserves_get cell2_0_lawful) fun x =>
    preserves_bind (preserves_get cell2_1_lawful) fun y =>
    preserves_wrapped memory (HandlerRef.UnpackXAttrStatus h)
      (fun g => Call.DelXAttr x ([] ++ [y]) g))

theorem preserves_DelXAttrFsBulkImpl (memory : Memory) (h : HandlerRef) :
    Preserves (DelXAttrFsBulkImpl.RunImplOn memory h) :=
  preserves_tryCatch (preserves_bind (preserves_get cell2_0_lawful) fun _ =>
    preserves_bind (preserves_get cell2_1_lawful) fun _ =>
    preserves_call memory _)

theorem preserves_ListXAttrFsImpl (memory : Memory) (h : HandlerRef) :
    Preserves (ListXAttrFsImpl.RunImplOn memory h) :=
  preserves_tryCatch (preserves_bind (preserves_get cell1_0_lawful) fun _ =>
    preserves_call memory _)

theorem link_LocateImpl (memory : Memory) (h : HandlerRef) (s : This (Arg String × Arg Nat)) :
    (LocateImpl.RunImplOn memory h s).step
      = LocateImpl.RunImpl (memory s.filesystem) h s.args.1 s.args.2 := by
  unfold LocateImpl.RunImplOn LocateImpl.RunImpl
  simp only [link_tryCatch, link_get_bind cell2_0_lawful, link_get_bind cell2_1_lawful,
    link_call]
  rfl

theorem link_DeepLocateImpl (memory : Memory) (h : HandlerRef) (s : This (Arg String × Arg Nat)) :
    (DeepLocateImpl.RunImplOn memory h s).step
      = DeepLocateImpl.RunImpl (memory s.filesystem) h s.args.1 s.args.2 := by
  unfold DeepLocateImpl.RunImplOn DeepLocateImpl.RunImpl
  simp only [link_tryCatch, link_get_bind cell2_0_lawful, link_get_bind cell2_1_lawful,
    link_call]
  rfl

theorem link_MvImpl (memory : Memory) (h : HandlerRef) (s : This (Arg String × Arg String)) :
    (MvImpl.RunImplOn memory h s).step
      = MvImpl.RunImpl (memory s.filesystem) h s.args.1 s.args.2 := by
  unfold MvImpl.RunImplOn MvImpl.RunImpl
  simp only [link_tryCatch, link_get_bind cell2_0_lawful, link_get_bind cell2_1_lawful,
    link_call]
  rfl

theorem link_QueryImpl (memory : Memory) (h : HandlerRef) (s : This (Arg Nat × Arg Buffer)) :
    (QueryImpl.RunImplOn memory h s).step
      = QueryImpl.RunImpl (memory s.filesystem) h s.args.1 s.args.2 := by
  unfold QueryImpl.RunImplOn QueryImpl.RunImpl
  simp only [link_tryCatch, link_get_bind cell2_0_lawful, link_get_bind cell2_1_lawful,
    link_call]
  rfl

theorem link_TruncateFsImpl (memory : Memory) (h : HandlerRef) (s : This (Arg String × Arg Nat)) :
    (TruncateFsImpl.RunImplOn memory h s).step
      = TruncateFsImpl.RunImpl (memory s.filesystem) h s.args.1 s.args.2 := by
  unfold TruncateFsImpl.RunImplOn TruncateFsImpl.RunImpl
  simp only [link_tryCatch, link_get_bind cell2_0_lawful, link_get_bind cell2_1_lawful,
    link_call]
  rfl

theorem link_RmImpl (memory : Memory) (h : HandlerRef) (s : This (Arg String)) :
    (RmImpl.RunImplOn memory h s).step
      = RmImpl.RunImpl (memory s.filesystem) h s.args := by
  unfold RmImpl.RunImplOn RmImpl.RunImpl
  simp only [link_tryCatch, link_get_bind cell1_0_lawful,
    link_call]
  rfl

theorem link_MkDirImpl (memory : Memory) (h : HandlerRef)
    (s : This (Arg String × Arg Nat × Arg Nat)) :
    (MkDirImpl.RunImplOn memory h s).step
      = MkDirImpl.RunImpl (memory s.filesystem) h s.args.1 s.args.2.1 s.args.2.2 := by
  unfold MkDirImpl.RunImplOn MkDirImpl.RunImpl
  simp only [link_tryCatch, link_get_bind cell3_0_lawful, link_get_bind cell3_1_lawful,
    link_get_bind cell3_2_lawful,
    link_call]
  rfl

theorem link_RmDirImpl (memory : Memory) (h : HandlerRef) (s : This (Arg String)) :
    (RmDirImpl.RunImplOn memory h s).step
      = RmDirImpl.RunImpl (memory s.filesystem) h s.args := by
  unfold RmDirImpl.RunImplOn RmDirImpl.RunImpl
  simp only [link_tryCatch, link_get_bind cell1_0_lawful,
    link_call]
  rfl

theorem link_ChModImpl (memory : Memory) (h : HandlerRef) (s : This (Arg String × Arg Nat)) :
    (ChModImpl.RunImplOn memory h s).step
      = ChModImpl.RunImpl (memory s.filesystem) h s.args.1 s.args.2 := by
  unfold ChModImpl.RunImplOn ChModImpl.RunImpl
  simp only [link_tryCatch, link_get_bind cell2_0_lawful, link_get_bind cell2_1_lawful,
    link_call]
  rfl

theorem link_PingImpl (memory : Memory) (h : HandlerRef) (s : This Unit) :
    (PingImpl.RunImplOn memory h s).step = PingImpl.RunImpl (memory s.filesystem) h :=
  rfl

theorem link_StatFsImpl (memory : Memory) (h : HandlerRef) (s : This (Arg String)) :
    (StatFsImpl.RunImplOn memory h s).step
      = StatFsImpl.RunImpl (memory s.filesystem) h s.args := by
  unfold StatFsImpl.RunImplOn StatFsImpl.RunImpl
  simp only [link_tryCatch, link_get_bind cell1_0_lawful,
    link_call]
  rfl

theorem link_StatVFSImpl (memory : Memory) (h : HandlerRef) (s : This (Arg String)) :
    (StatVFSImpl.RunImplOn memory h s).step
      = StatVFSImpl.RunImpl (memory s.filesystem) h s.args := by
  unfold StatVFSImpl.RunImplOn StatVFSImpl.RunImpl
  simp only [link_tryCatch, link_get_bind cell1_0_lawful,
    link_call]
  rfl

theorem link_ProtocolImpl (memory : Memory) (h : HandlerRef) (s : This Unit) :
    (ProtocolImpl.RunImplOn memory h s).step = ProtocolImpl.RunImpl (memory s.filesystem) h :=
  rfl

theorem link_DirListImpl (memory : Memory) (h : HandlerRef) (s : This (Arg String × Arg Nat)) :
    (DirListImpl.RunImplOn memory h s).step
      = DirListImpl.RunImpl (memory s.filesystem) h s.args.1 s.args.2 := by
  unfold DirListImpl.RunImplOn DirListImpl.RunImpl
  simp only [link_tryCatch, link_get_bind cell2_0_lawful, link_get_bind cell2_1_lawful,
    link_call]
  rfl

theorem link_SendInfoImpl (memory : Memory) (h : HandlerRef) (s : This (Arg String)) :
    (SendInfoImpl.RunImplOn memory h s).step
      = SendInfoImpl.RunImpl (memory s.filesystem) h s.args := by
  unfold SendInfoImpl.RunImplOn SendInfoImpl.RunImpl
  simp only [link_tryCatch, link_get_bind cell1_0_lawful,
    link_call]
  rfl

theorem link_PrepareImpl (memory : Memory) (h : HandlerRef)
    (s : This (Arg (List String) × Arg Nat × Arg Nat)) :
    (PrepareImpl.RunImplOn memory h s).step
      = PrepareImpl.RunImpl (memory s.filesystem) h s.args.1 s.args.2.1 s.args.2.2 := by
  unfold PrepareImpl.RunImplOn PrepareImpl.RunImpl
  simp only [link_tryCatch, link_get_bind cell3_0_lawful, link_get_bind cell3_1_lawful,
    link_get_bind cell3_2_lawful,
    link_call]
  rfl

theorem link_SetXAttrFsImpl (memory : Memory) (h : HandlerRef)
    (s : This (Arg String × Arg String × Arg String)) :
    (SetXAttrFsImpl.RunImplOn memory h s).step
      = SetXAttrFsImpl.RunImpl (memory s.filesystem) h s.args.1 s.args.2.1 s.args.2.2 := by
  unfold SetXAttrFsImpl.RunImplOn SetXAttrFsImpl.RunImpl
  simp only [link_tryCatch, link_get_bind cell3_0_lawful, link_get_bind cell3_1_lawful,
    link_get_bind cell3_2_lawful,
    link_wrapped]
  rfl

theorem link_SetXAttrFsBulkImpl (memory : Memory) (h : HandlerRef)
    (s : This (Arg String × Arg (List xattr_t))) :
    (SetXAttrFsBulkImpl.RunImplOn memory h s).step
      = SetXAttrFsBulkImpl.RunImpl (memory s.filesystem) h s.args.1 s.args.2 := by
  unfold SetXAttrFsBulkImpl.RunImplOn SetXAttrFsBulkImpl.RunImpl
  simp only [link_tryCatch, link_get_bind cell2_0_lawful, link_get_bind cell2_1_lawful,
    link_call]
  rfl

theorem link_GetXAttrFsImpl (memory : Memory) (h : HandlerRef)
    (s : This (Arg String × Arg String)) :
    (GetXAttrFsImpl.RunImplOn memory h s).step
      = GetXAttrFsImpl.RunImpl (memory s.filesystem) h s.args.1 s.args.2 := by
  unfold GetXAttrFsImpl.RunImplOn GetXAttrFsImpl.RunImpl
  simp only [link_tryCatch, link_get_bind cell2_0_lawful, link_get_bind cell2_1_lawful,
    link_wrapped]
  rfl

theorem link_GetXAttrFsBulkImpl (memory : Memory) (h : HandlerRef)
    (s : This (Arg String × Arg (List String))) :
    (GetXAttrFsBulkImpl.RunImplOn memory h s).step
      = GetXAttrFsBulkImpl.RunImpl (memory s.filesystem) h s.args.1 s.args.2 := by
  unfold GetXAttrFsBulkImpl.RunImplOn GetXAttrFsBulkImpl.RunImpl
  simp only [link_tryCatch, link_get_bind cell2_0_lawful, link_get_bind cell2_1_lawful,
    link_call]
  rfl

theorem link_DelXAttrFsImpl (memory : Memory) (h : HandlerRef)
    (s : This (Arg String × Arg String)) :
    (DelXAttrFsImpl.RunImplOn memory h s).step
      = DelXAttrFsImpl.RunImpl (memory s.filesystem) h s.args.1 s.args.2 := by
  unfold DelXAttrFsImpl.RunImplOn DelXAttrFsImpl.RunImpl
  simp only [link_tryCatch, link_get_bind cell2_0_lawful, link_get_bind cell2_1_lawful,
    link_wrapped]
  rfl

theorem link_DelXAttrFsBulkImpl (memory : Memory) (h : HandlerRef)
    (s : This (Arg String × Arg (List String))) :
    (DelXAttrFsBulkImpl.RunImplOn memory h s).step
      = DelXAttrFsBulkImpl.RunImpl (memory s.filesystem) h s.args.1 s.args.2 := by
  unfold DelXAttrFsBulkImpl.RunImplOn DelXAttrFsBulkImpl.RunImpl
  simp only [link_tryCatch, link_get_bind cell2_0_lawful, link_get_bind cell2_1_lawful,
    link_call]
  rfl

theorem link_ListXAttrFsImpl (memory : Memory) (h : HandlerRef) (s : This (Arg String)) :
    (ListXAttrFsImpl.RunImplOn memory h s).step
      = ListXAttrFsImpl.RunImpl (memory s.filesystem) h s.args := by
  unfold ListXAttrFsImpl.RunImplOn ListXAttrFsImpl.RunImpl
  simp only [link_tryCatch, link_get_bind cell1_0_lawful,
    link_call]
  rfl

theorem Operation.RunImplOn_state (memory : Memory) (h : HandlerRef) (fs : FileSystemPtr)
    (op : Operation) :
    (Operation.RunImplOn memory h fs op).state = { filesystem := fs, args := op } := by
  cases op <;> simp only [Operation.RunImplOn, Ran.mapState]
  · rw [preserves_LocateImpl memory h]
  · rw [preserves_DeepLocateImpl memory h]
  · rw [preserves_MvImpl memory h]
  · rw [preserves_QueryImpl memory h]
  · rw [preserves_TruncateFsImpl memory h]
  · rw [preserves_RmImpl memory h]
  · rw [preserves_MkDirImpl memory h]
  · rw [preserves_RmDirImpl memory h]
  · rw [preserves_ChModImpl memory h]
  · rw [preserves_PingImpl memory h]
  · rw [preserves_StatFsImpl memory h]
  · rw [preserves_StatVFSImpl memory h]
  · rw [preserves_ProtocolImpl memory h]
  · rw [preserves_DirListImpl memory h]
  · rw [preserves_SendInfoImpl memory h]
  · rw [preserves_PrepareImpl memory h]
  · rw [preserves_SetXAttrFsImpl memory h]
  · rw [preserves_SetXAttrFsBulkImpl memory h]
  · rw [preserves_GetXAttrFsImpl memory h]
  · rw [preserves_GetXAttrFsBulkImpl memory h]
  · rw [preserves_DelXAttrFsImpl memory h]
  · rw [preserves_DelXAttrFsBulkImpl memory h]
  · rw [preserves_ListXAttrFsImpl memory h]

theorem Operation.RunImplOn_step (memory : Memory) (h : HandlerRef) (fs : FileSystemPtr)
    (op : Operation) :
    (Operation.RunImplOn memory h fs op).step = op.RunImpl (memory fs) h := by
  cases op
  · exact link_LocateImpl memory h _
  · exact link_DeepLocateImpl memory h _
  · exact link_MvImpl memory h _
  · exact link_QueryImpl memory h _
  · exact link_TruncateFsImpl memory h _
  · exact link_RmImpl memory h _
  · exact link_MkDirImpl memory h _
  · exact link_RmDirImpl memory h _
  · exact link_ChModImpl memory h _
  · exact link_PingImpl memory h _
  · exact link_StatFsImpl memory h _
  · exact link_StatVFSImpl memory h _
  · exact link_ProtocolImpl memory h _
  · exact link_DirListImpl memory h _
  · exact link_SendInfoImpl memory h _
  · exact link_PrepareImpl memory h _
  · exact link_SetXAttrFsImpl memory h _
  · exact link_SetXAttrFsBulkImpl memory h _
  · exact link_GetXAttrFsImpl memory h _
  · exact link_GetXAttrFsBulkImpl memory h _
  · exact link_DelXAttrFsImpl memory h _
  · exact link_DelXAttrFsBulkImpl memory h _
  · exact link_ListXAttrFsImpl memory h _

theorem FileSystemOperation.RunImpl_snd {b : Bool} (memory : Memory) (h : HandlerRef)
    (op : FileSystemOperation b) : (op.RunImpl memory h).2 = op := by
  cases op
  simp [FileSystemOperation.RunImpl, Operation.RunImplOn_state]

/-- C24: `RunImpl` does not mutate the operation: the object that the body of the
class leaves after a run, whatever the run returned, is the object before the
run, with every argument cell and the file system pointer as they were (the run
of the body on the object is the run `RunImpl` by its events and outcome); so a
second run of it is the first run again, and also when the file system answers
differently the second time (`memory2`) it issues the requests the first run
issued. -/
theorem runImpl_leaves_operation_unchanged (b : Bool) (memory memory2 : Memory)
    (h : HandlerRef) (op : FileSystemOperation b) :
    (op.RunImpl memory h).2 = op
      ∧ (op.RunImpl memory h).2.args = op.args
      ∧ (op.RunImpl memory h).2.filesystem = op.filesystem
      ∧ (Operation.RunImplOn memory h op.filesystem op.args).step = (op.RunImpl memory h).1
      ∧ ((op.RunImpl memory h).2.RunImpl memory h).1 = (op.RunImpl memory h).1
      ∧ issued ((op.RunImpl memory h).2.RunImpl memory2 h).1.trace
        = issued (op.RunImpl memory h).1.trace := by
  rw [FileSystemOperation.RunImpl_snd]
  exact ⟨rfl, rfl, rfl, Operation.RunImplOn_step memory h op.filesystem op.args, rfl,
    Operation.issued_RunImpl_congr (memory2 op.filesystem) (memory op.filesystem) h op.args⟩

/-- C27: for every operation with arguments, when the evaluation of an argument
(the first that fails) raises a standard exception that is not a pipeline error
and whose text is `m`, `RunImpl` returns the status built from `stError` and
`m`: it is an error (`IsOK()` is false) and its message is exactly `m`.  A
pipeline error is not handled by this branch: the status it carries is
returned. -/
theorem generic_branch_returns_error_with_text (fs : FileSystem) (h : HandlerRef)
    (op : Operation) (i : Nat) (t : Thrown) (hf : FailsFirstAt op.faults i t) :
    (∀ m, t = Thrown.stdException m →
        ∃ st, (op.RunImpl fs h).out = Except.ok st ∧ st = XRootDStatus.stError m
          ∧ st.IsOK = false ∧ st.message = m)
      ∧ (∀ e, t = Thrown.PipelineException e → (op.RunImpl fs h).out = Except.ok e) := by
  rw [Operation.RunImpl_of_fault fs h op (firstFault_of_failsFirstAt hf), stoppedAt_out]
  refine ⟨?_, ?_⟩
  · rintro m rfl
    exact ⟨XRootDStatus.stError m, rfl, rfl, rfl, rfl⟩
  · rintro e rfl
    rfl

theorem generic_branch_returns_error_with_text_witness :
    FailsFirstAt (Operation.Prepare (Arg.bound ["/a"])
        (Arg.raising (Thrown.stdException "no flags")) (Arg.bound 0)).faults 1
        (Thrown.stdException "no flags")
      ∧ ∃ st, ((Operation.Prepare (Arg.bound ["/a"])
            (Arg.raising (Thrown.stdException "no flags")) (Arg.bound 0)).RunImpl statStub
            (HandlerRef.pipeline 0)).out = Except.ok st
          ∧ st = XRootDStatus.stError "no flags" ∧ st.IsOK = false
          ∧ st.message = "no flags" :=
  have hf : FailsFirstAt (Operation.Prepare (Arg.bound ["/a"])
      (Arg.raising (Thrown.stdException "no flags")) (Arg.bound 0)).faults 1
      (Thrown.stdException "no flags") := by
    refine ⟨fun j hj => ?_, by simp [Operation.faults, Arg.fault, Arg.Get]⟩
    have hj0 : j = 0 := by omega
    subst hj0
    simp [Operation.faults, Arg.fault, Arg.Get]
  ⟨hf, (generic_branch_returns_error_with_text statStub (HandlerRef.pipeline 0) _ 1
    (Thrown.stdException "no flags") hf).1 _ rfl⟩

theorem HandlerRef.unpackXAttrStatus_ne (h : HandlerRef) :
    HandlerRef.UnpackXAttrStatus h ≠ h := by
  induction h with
  | pipeline id => intro e; cases e
  | UnpackXAttrStatus g ih =>
    intro e
    injection e with e2
    exact ih e2
  | UnpackXAttr g _ => intro e; cases e

theorem HandlerRef.unpackXAttr_ne (h : HandlerRef) : HandlerRef.UnpackXAttr h ≠ h := by
  induction h with
  | pipeline id => intro e; cases e
  | UnpackXAttrStatus g _ => intro e; cases e
  | UnpackXAttr g ih =>
    intro e
    injection e with e2
    exact ih e2

/-- C26: in each single-attribute operation the handler given to the endpoint is a
fresh unpacking wrapper around the handler `h` of the operation
(`UnpackXAttrStatus` for SetXAttr and DelXAttr, `UnpackXAttr` for GetXAttr),
allocated just before the call.  For each of the three operations, when its call
returns the immediate status `st`, the run ends with the release of that
wrapper if `st` is not OK (it is released once, after the call) and without it
if `st` is OK (the wrapper is left to the endpoint): the wrapper is released if
and only if `st` is not OK; the handler `h` itself is never released. -/
theorem wrapper_released_iff_rejected (fs : FileSystem) (h : HandlerRef) (p n v : String) :
    (∀ st, fs.submit (Call.SetXAttr p [(n, v)] (HandlerRef.UnpackXAttrStatus h))
          = Except.ok st →
        (SetXAttrFsImpl.RunImpl fs h (Arg.bound p) (Arg.bound n) (Arg.bound v)).trace
          = [Event.get 0, Event.get 1, Event.get 2,
              Event.alloc (HandlerRef.UnpackXAttrStatus h),
              Event.issue (Call.SetXAttr p [(n, v)] (HandlerRef.UnpackXAttrStatus h))]
            ++ (if st.IsOK = true then []
                else [Event.release (HandlerRef.UnpackXAttrStatus h)])
        ∧ (Event.release (HandlerRef.UnpackXAttrStatus h)
            ∈ (SetXAttrFsImpl.RunImpl fs h (Arg.bound p) (Arg.bound n) (Arg.bound v)).trace
          ↔ st.IsOK = false)
        ∧ Event.release h
          ∉ (SetXAttrFsImpl.RunImpl fs h (Arg.bound p) (Arg.bound n) (Arg.bound v)).trace)
    ∧ (∀ st, fs.submit (Call.GetXAttr p [n] (HandlerRef.UnpackXAttr h)) = Except.ok st →
        (GetXAttrFsImpl.RunImpl fs h (Arg.bound p) (Arg.bound n)).trace
          = [Event.get 0, Event.get 1, Event.alloc (HandlerRef.UnpackXAttr h),
              Event.issue (Call.GetXAttr p [n] (HandlerRef.UnpackXAttr h))]
            ++ (if st.IsOK = true then [] else [Event.release (HandlerRef.UnpackXAttr h)])
        ∧ (Event.release (HandlerRef.UnpackXAttr h)
            ∈ (GetXAttrFsImpl.RunImpl fs h (Arg.bound p) (Arg.bound n)).trace
          ↔ st.IsOK = false)
        ∧ Event.release h ∉ (GetXAttrFsImpl.RunImpl fs h (Arg.bound p) (Arg.bound n)).trace)
    ∧ (∀ st, fs.submit (Call.DelXAttr p [n] (HandlerRef.UnpackXAttrStatus h))
          = Except.ok st →
        (DelXAttrFsImpl.RunImpl fs h (Arg.bound p) (Arg.bound n)).trace
          = [Event.get 0, Event.get 1, Event.alloc (HandlerRef.UnpackXAttrStatus h),
              Event.issue (Call.DelXAttr p [n] (HandlerRef.UnpackXAttrStatus h))]
            ++ (if st.IsOK = true then []
                else [Event.release (HandlerRef.UnpackXAttrStatus h)])
        ∧ (Event.release (HandlerRef.UnpackXAttrStatus h)
            ∈ (DelXAttrFsImpl.RunImpl fs h (Arg.bound p) (Arg.bound n)).trace
          ↔ st.IsOK = false)
        ∧ Event.release h
          ∉ (DelXAttrFsImpl.RunImpl fs h (Arg.bound p) (Arg.bound n)).trace) := by
  have hs := (HandlerRef.unpackXAttrStatus_ne h).symm
  have hg := (HandlerRef.unpackXAttr_ne h).symm
  refine ⟨?_, ?_, ?_⟩
  · intro st hset
    have hset2 : fs.submit (Call.SetXAttr p ([] ++ [(n, v)]) (HandlerRef.UnpackXAttrStatus h))
        = Except.ok st := hset
    have tset : (SetXAttrFsImpl.RunImpl fs h (Arg.bound p) (Arg.bound n) (Arg.bound v)).trace
        = [Event.get 0, Event.get 1, Event.get 2,
            Event.alloc (HandlerRef.UnpackXAttrStatus h),
            Event.issue (Call.SetXAttr p [(n, v)] (HandlerRef.UnpackXAttrStatus h))]
          ++ (if st.IsOK = true then []
              else [Event.release (HandlerRef.UnpackXAttrStatus h)]) := by
      rw [SetXAttrFsImpl.RunImpl, tryCatch_trace]
      simp only [getArg, newHandler, issue, bind, Step.bind, Arg.Get, hset2]
      cases hok : st.IsOK <;> simp [hok, deleteHandler, pure]
    refine ⟨tset, ?_, ?_⟩
    · rw [tset]
      cases st.IsOK <;> simp
    · rw [tset]
      cases st.IsOK <;> simp [hs]
  · intro st hget
    have hget2 : fs.submit (Call.GetXAttr p ([] ++ [n]) (HandlerRef.UnpackXAttr h))
        = Except.ok st := hget
    have tget : (GetXAttrFsImpl.RunImpl fs h (Arg.bound p) (Arg.bound n)).trace
        = [Event.get 0, Event.get 1, Event.alloc (HandlerRef.UnpackXAttr h),
            Event.issue (Call.GetXAttr p [n] (HandlerRef.UnpackXAttr h))]
          ++ (if st.IsOK = true then [] else [Event.release (HandlerRef.UnpackXAttr h)]) := by
      rw [GetXAttrFsImpl.RunImpl, tryCatch_trace]
      simp only [getArg, newHandler, issue, bind, Step.bind, Arg.Get, hget2]
      cases hok : st.IsOK <;> simp [hok, deleteHandler, pure]
    refine ⟨tget, ?_, ?_⟩
    · rw [tget]
      cases st.IsOK <;> simp
    · rw [tget]
      cases st.IsOK <;> simp [hg]
  · intro st hdel
    have hdel2 : fs.submit (Call.DelXAttr p ([] ++ [n]) (HandlerRef.UnpackXAttrStatus h))
        = Except.ok st := hdel
    have tdel : (DelXAttrFsImpl.RunImpl fs h (Arg.bound p) (Arg.bound n)).trace
        = [Event.get 0, Event.get 1, Event.alloc (HandlerRef.UnpackXAttrStatus h),
            Event.issue (Call.DelXAttr p [n] (HandlerRef.UnpackXAttrStatus h))]
          ++ (if st.IsOK = true then []
              else [Event.release (HandlerRef.UnpackXAttrStatus h)]) := by
      rw [DelXAttrFsImpl.RunImpl, tryCatch_trace]
      simp only [getArg, newHandler, issue, bind, Step.bind, Arg.Get, hdel2]
      cases hok : st.IsOK <;> simp [hok, deleteHandler, pure]
    refine ⟨tdel, ?_, ?_⟩
    · rw [tdel]
      cases st.IsOK <;> simp
    · rw [tdel]
      cases st.IsOK <;> simp [hs]

theorem wrapper_released_iff_rejected_witness :
    (SetXAttrFsImpl.RunImpl (mixedStub forwardingError XRootDStatus.OK forwardingError)
        (HandlerRef.pipeline 0) (Arg.bound "/f") (Arg.bound "user.a") (Arg.bound "1")).trace
        = [Event.get 0, Event.get 1, Event.get 2,
            Event.alloc (HandlerRef.UnpackXAttrStatus (HandlerRef.pipeline 0)),
            Event.issue (Call.SetXAttr "/f" [("user.a", "1")]
              (HandlerRef.UnpackXAttrStatus (HandlerRef.pipeline 0))),
            Event.release (HandlerRef.UnpackXAttrStatus (HandlerRef.pipeline 0))]
      ∧ (GetXAttrFsImpl.RunImpl (mixedStub forwardingError XRootDStatus.OK forwardingError)
          (HandlerRef.pipeline 0) (Arg.bound "/f") (Arg.bound "user.a")).trace
        = [Event.get 0, Event.get 1,
            Event.alloc (HandlerRef.UnpackXAttr (HandlerRef.pipeline 0)),
            Event.issue (Call.GetXAttr "/f" ["user.a"]
              (HandlerRef.UnpackXAttr (HandlerRef.pipeline 0)))] :=
  have hw := wrapper_released_iff_rejected
    (mixedStub forwardingError XRootDStatus.OK forwardingError) (HandlerRef.pipeline 0)
    "/f" "user.a" "1"
  ⟨(hw.1 forwardingError rfl).1, (hw.2.1 XRootDStatus.OK rfl).1⟩

end XrdCl
